import Mathlib

/-!
# Verification of the `VideoPlayer` widget (`script.js`)

A shallow embedding of the playback-sequencing and UI-state logic of the
`VideoPlayer` class in `src/script.js`.

Modelling conventions, stated once here:

* JS numbers are modelled by `ℚ`.  The only places where the non-finite
  values NaN / ±Infinity matter are the media `duration` properties (NaN
  until the `loadedmetadata` notification) and the progress-percent
  computation; a not-yet-known duration is modelled as `none : Option ℚ`,
  and a non-finite computed percentage as `none` (see `jsPercentTimes100`).
* The DOM is modelled by the boolean class/`style` flags the code actually
  toggles (`classList.add/remove('hidden')`, `style.opacity`,
  `pointer-events` classes), one field per element the code touches.
* The media engine (an HTMLMediaElement per video) is modelled by its
  standard contract: `play()`/`pause()` toggle `paused` and fire the
  corresponding notification, which we deliver synchronously with the
  command (the code runs on one cooperative event queue); assigning
  `currentTime` seeks to the given time clamped into `[0, duration]`
  (the HTML media-element seeking algorithm), and before metadata is
  known simply records the value.
* `setTimeout`/`clearTimeout` are modelled by a list of pending timer ids
  plus a fresh-id counter; `clearTimeout h` removes `h` if pending.
-/

/-- JS `a || d` for an optionally-present numeric configuration field:
`undefined` and the falsy number `0` both select the default. -/
def jsOrNum (v : Option ℚ) (d : ℚ) : ℚ :=
  match v with
  | none => d
  | some x => if x = 0 then d else x

/-- JS `a || d` for an optionally-present string configuration field:
`undefined` and the falsy empty string both select the default. -/
def jsOrStr (v : Option String) (d : String) : String :=
  match v with
  | none => d
  | some s => if s = "" then d else s

/-- The `mainVideo` sub-record of the constructor argument (all fields
optional, as in JS). -/
structure MainVideoInput where
  url : Option String := none
  title : Option String := none
  description : Option String := none
  mime : Option String := none
  deriving DecidableEq, Repr

/-- The `adVideo` sub-record of the constructor argument. -/
structure AdVideoInput where
  url : Option String := none
  skipAfter : Option ℚ := none
  mime : Option String := none
  deriving DecidableEq, Repr

/-- The constructor argument (`config`); every field may be absent.
The purely presentational `section` record is not modelled. -/
structure ConfigInput where
  wrapperId : Option String := none
  mainVideo : Option MainVideoInput := none
  adVideo : Option AdVideoInput := none
  thumbnailUrl : Option String := none
  skipBackwardSeconds : Option ℚ := none
  skipForwardSeconds : Option ℚ := none
  autoHideControlsDelay : Option ℚ := none
  infoText : Option String := none
  deriving DecidableEq, Repr

/-- `this.config` after the constructor's defaulting (lines 28–47). -/
structure Config where
  wrapperId : String
  mainUrl : String
  mainTitle : String
  mainDescription : String
  mainMime : String
  adUrl : String
  skipAfter : ℚ
  adMime : String
  thumbnailUrl : String
  skipBackwardSeconds : ℚ
  skipForwardSeconds : ℚ
  autoHideControlsDelay : ℚ
  infoText : String
  deriving DecidableEq, Repr

/-- The constructor's validation and falsy-coalescing defaulting
(`script.js` lines 22–47).  `none` models the thrown
`VideoPlayer requires a wrapperId`. -/
def mkConfig (cfg : ConfigInput) : Option Config :=
  match cfg.wrapperId with
  | none => none
  | some w =>
    if w = "" then none else
    some
      { wrapperId := w
        mainUrl := jsOrStr (cfg.mainVideo.bind MainVideoInput.url) ""
        mainTitle := jsOrStr (cfg.mainVideo.bind MainVideoInput.title) "Untitled Video"
        mainDescription := jsOrStr (cfg.mainVideo.bind MainVideoInput.description)
          "No description available"
        mainMime := jsOrStr (cfg.mainVideo.bind MainVideoInput.mime) "video/mp4"
        adUrl := jsOrStr (cfg.adVideo.bind AdVideoInput.url) ""
        skipAfter := jsOrNum (cfg.adVideo.bind AdVideoInput.skipAfter) 5
        adMime := jsOrStr (cfg.adVideo.bind AdVideoInput.mime) "video/mp4"
        thumbnailUrl := jsOrStr cfg.thumbnailUrl
          (jsOrStr (cfg.mainVideo.bind MainVideoInput.url) "")
        skipBackwardSeconds := jsOrNum cfg.skipBackwardSeconds 10
        skipForwardSeconds := jsOrNum cfg.skipForwardSeconds 10
        autoHideControlsDelay := jsOrNum cfg.autoHideControlsDelay 3000
        infoText := jsOrStr cfg.infoText
          "Video akan memutar iklan terlebih dahulu. Klik tombol Skip setelah beberapa detik atau tunggu hingga iklan selesai." }

/-- Where the pointer is, for the purpose of the `mouseenter` /
`mouseleave` / `mousemove` listeners the code installs: outside the
player container, over the container but not over a tracked control
surface, over the bottom control bar (`#bottomControls`), or over the
settings container (`#settingsContainer`). -/
inductive Region where
  | outside
  | container
  | bottomBar
  | settingsArea
  deriving DecidableEq, Repr

/-- The player state: every DOM flag, media-element property, class field
and environment resource the bound handlers read or write. -/
structure State where
  -- `classList.contains('hidden')` of the elements the code toggles
  thumbnailHidden : Bool
  adHidden : Bool
  mainHidden : Bool
  controlsHidden : Bool          -- #mainVideoControls
  adOverlayHidden : Bool
  playOverlayHidden : Bool
  skipCountdownHidden : Bool
  adSpinnerHidden : Bool
  spinnerHidden : Bool           -- #loadingSpinner
  settingsMenuHidden : Bool
  speedSubmenuHidden : Bool
  qualitySubmenuHidden : Bool
  centerPlayIconHidden : Bool
  centerPauseIconHidden : Bool
  volumeIconHidden : Bool
  muteIconHidden : Bool
  fullscreenIconHidden : Bool
  exitFullscreenIconHidden : Bool
  -- #skipButton: `opacity-100 pointer-events-auto` (true) vs
  -- `opacity-0 pointer-events-none` (false)
  skipButtonActive : Bool
  -- `style.opacity` of the six control elements (true = '1', false = '0')
  bottomControlsShown : Bool
  centerPlayShown : Bool
  skipBackShown : Bool
  skipFwdShown : Bool
  videoInfoShown : Bool
  settingsContainerShown : Bool
  -- media elements
  mainPaused : Bool
  adPaused : Bool
  mainTime : ℚ
  adTime : ℚ
  mainDur : Option ℚ             -- none = NaN (metadata not yet loaded)
  adDur : Option ℚ
  volume : ℚ
  playbackRate : ℚ
  -- displayed values
  progressWidth : ℚ              -- effective CSS percentage of #progressBar
  progressLeft : ℚ               -- effective CSS percentage of #progressHandle
  currentTimeText : String
  durationText : String
  volumeSliderValue : ℚ
  skipTimerVal : ℚ               -- #skipTimer text (a number)
  adTimerVal : Option ℤ          -- #adTimer text; none = non-numeric ('--' / NaN)
  speedLabel : String
  qualityLabel : String
  -- instance fields
  adDurationFloor : ℤ            -- this.adDuration
  hideControlsTimeout : Option ℕ
  isUserInteracting : Bool
  isSettingsOpen : Bool
  -- environment
  timers : List ℕ                -- pending setTimeout ids
  nextTimerId : ℕ
  pointer : Region
  listenersAttached : Bool
  isFullscreen : Bool
  deriving DecidableEq, Repr

/-- The state right after `init()`: the DOM tree built by
`createPlayerStructure` (initial class lists / inline styles of
`script.js` lines 87–652) together with `setVideoInfo` (lines 744–760)
and the freshly initialised instance fields (lines 49–53). -/
def initState (c : Config) : State where
  thumbnailHidden := false
  adHidden := true
  mainHidden := true
  controlsHidden := true
  adOverlayHidden := false       -- #adOverlay is created without 'hidden'
  playOverlayHidden := false
  skipCountdownHidden := false
  adSpinnerHidden := true
  spinnerHidden := true
  settingsMenuHidden := true
  speedSubmenuHidden := true
  qualitySubmenuHidden := true
  centerPlayIconHidden := false
  centerPauseIconHidden := true
  volumeIconHidden := false
  muteIconHidden := true
  fullscreenIconHidden := false
  exitFullscreenIconHidden := true
  skipButtonActive := false
  bottomControlsShown := false
  centerPlayShown := false
  skipBackShown := false
  skipFwdShown := false
  videoInfoShown := false
  settingsContainerShown := false
  mainPaused := true
  adPaused := true
  mainTime := 0
  adTime := 0
  mainDur := none
  adDur := none
  volume := 1
  playbackRate := 1
  progressWidth := 0
  progressLeft := 0
  currentTimeText := "0:00"
  durationText := "0:00"
  volumeSliderValue := 100
  skipTimerVal := c.skipAfter    -- setVideoInfo: skipTimer.textContent = skipAfter
  adTimerVal := none             -- initial '--'
  speedLabel := "1x"
  qualityLabel := "Auto"
  adDurationFloor := 0
  hideControlsTimeout := none
  isUserInteracting := false
  isSettingsOpen := false
  timers := []
  nextTimerId := 0
  pointer := Region.outside
  listenersAttached := true
  isFullscreen := false

/-! ## Helper functions translated from individual methods -/

/-- JS `Math.trunc`-style truncation of a rational (used for the JS `%`
remainder, which truncates toward zero). -/
def jsTrunc (q : ℚ) : ℤ :=
  if 0 ≤ q then ⌊q⌋ else -⌊-q⌋

/-- JS `a % b` (remainder with the sign of the dividend). -/
def jsMod (a b : ℚ) : ℚ :=
  a - b * (jsTrunc (a / b) : ℚ)

/-- `formatTime(seconds)` (lines 862–866): minutes unbounded, seconds
zero-padded to two digits. -/
def formatTime (seconds : ℚ) : String :=
  let mins : ℤ := ⌊seconds / 60⌋
  let secs : ℤ := ⌊jsMod seconds 60⌋
  toString mins ++ ":" ++ (if secs < 10 then "0" else "") ++ toString secs

/-- The JS expression `currentTime / duration * 100` of the main
`timeupdate` handler, as an `Option`: `none` is the non-finite result
(NaN when the duration is NaN or `0/0`, ±Infinity when dividing a
non-zero time by a zero duration). -/
def jsPercentTimes100 (ct : ℚ) (dur : Option ℚ) : Option ℚ :=
  match dur with
  | none => none
  | some d => if d = 0 then none else some (ct / d * 100)

/-- Effect of assigning `p + '%'` to a CSS percentage property: a
non-finite `p` serialises to an invalid `<percentage>` token, which the
CSSOM rejects, leaving the declaration (and hence the rendered value)
unchanged. -/
def cssSetPct (old : ℚ) (p : Option ℚ) : ℚ :=
  p.getD old

/-- `clearTimeout(this.hideControlsTimeout)`: cancels the stored timer
handle if that timeout is still pending. -/
def clearHideTimeout (s : State) : State :=
  match s.hideControlsTimeout with
  | none => s
  | some h => { s with timers := s.timers.erase h }

/-- Arm the auto-hide timeout: `this.hideControlsTimeout = setTimeout(...)`. -/
def armHideTimeout (s : State) : State :=
  { s with
    timers := s.timers ++ [s.nextTimerId]
    hideControlsTimeout := some s.nextTimerId
    nextTimerId := s.nextTimerId + 1 }

/-- The body of the auto-hide timeout callback and of the container
`mouseleave` handler: sets the six control opacities to `'0'`. -/
def hideAllControls (s : State) : State :=
  { s with
    bottomControlsShown := false
    centerPlayShown := false
    skipBackShown := false
    skipFwdShown := false
    videoInfoShown := false
    settingsContainerShown := false }

/-- Sets the six control opacities to `'1'` (first half of
`showControls`, and the body of the `pause` handler's opacity block). -/
def showAllControls (s : State) : State :=
  { s with
    bottomControlsShown := true
    centerPlayShown := true
    skipBackShown := true
    skipFwdShown := true
    videoInfoShown := true
    settingsContainerShown := true }

/-- `showControls()` (lines 886–906): reveal the controls, cancel any
pending hide timeout, then re-arm it only while playing with neither
suppressor active. -/
def showControls (s : State) : State :=
  let s := showAllControls s
  let s := clearHideTimeout s
  if !s.mainPaused && !s.isUserInteracting && !s.isSettingsOpen then
    armHideTimeout s
  else s

/-- `updatePlayPauseIcons(isPlaying)` (lines 876–884). -/
def updatePlayPauseIcons (isPlaying : Bool) (s : State) : State :=
  if isPlaying then
    { s with centerPlayIconHidden := true, centerPauseIconHidden := false }
  else
    { s with centerPlayIconHidden := false, centerPauseIconHidden := true }

/-- The main video `play` listener (lines 912–915). -/
def mainPlayHandler (s : State) : State :=
  showControls (updatePlayPauseIcons true s)

/-- The main video `pause` listener (lines 918–927). -/
def mainPauseHandler (s : State) : State :=
  showAllControls (clearHideTimeout (updatePlayPauseIcons false s))

/-- `mainVideo.play()`: the engine leaves `paused`, and the `play`
notification (delivered synchronously with the command on the single
event queue) runs the bound listener; a `play()` call on an already
playing element fires nothing. -/
def mainPlayCmd (s : State) : State :=
  if s.mainPaused then mainPlayHandler { s with mainPaused := false } else s

/-- `mainVideo.pause()`: dually to `mainPlayCmd`. -/
def mainPauseCmd (s : State) : State :=
  if s.mainPaused then s else mainPauseHandler { s with mainPaused := true }

/-- `togglePlayPause()` (lines 868–874). -/
def togglePlayPause (s : State) : State :=
  if s.mainPaused then mainPlayCmd s else mainPauseCmd s

/-- The ad video `play` listener (lines 804–808): re-show the countdown,
make the skip button inert. -/
def adPlayHandler (s : State) : State :=
  { s with skipCountdownHidden := false, skipButtonActive := false }

/-- `adVideo.play()` with its synchronously delivered notification. -/
def adPlayCmd (s : State) : State :=
  if s.adPaused then adPlayHandler { s with adPaused := false } else s

/-- `adVideo.pause()`: no `pause` listener is bound on the ad element. -/
def adPauseCmd (s : State) : State :=
  { s with adPaused := true }

/-- Assigning `mainVideo.currentTime = x`: the engine's seeking algorithm
clamps the target into `[0, duration]`; before metadata is known the
value is merely recorded (default playback start position). -/
def setCurrentTimeMain (x : ℚ) (s : State) : State :=
  match s.mainDur with
  | none => { s with mainTime := x }
  | some d => { s with mainTime := max 0 (min x d) }

/-- `skipToMainVideo()` (lines 845–858): stop and rewind the ad, hide the
ad stage, reveal main content and controls, start main playback. -/
def skipToMainVideo (s : State) : State :=
  let s := adPauseCmd s
  let s := { s with adTime := 0 }
  let s := { s with adHidden := true, adOverlayHidden := true }
  let s := { s with mainHidden := false, controlsHidden := false }
  mainPlayCmd s

/-- The ad `timeupdate` listener (lines 781–801): refresh the remaining
time, and either activate the skip button (elapsed ≥ `skipAfter`) or
refresh the countdown. -/
def adTimeupdateHandler (c : Config) (s : State) : State :=
  let currentTime : ℤ := ⌊s.adTime⌋
  let s := { s with adTimerVal := s.adDur.map (fun d => ⌊d - s.adTime⌋) }
  if c.skipAfter ≤ (currentTime : ℚ) then
    { s with
      skipCountdownHidden := true
      skipButtonActive := true }
  else
    { s with skipTimerVal := c.skipAfter - (currentTime : ℚ) }

/-- The main `timeupdate` listener (lines 930–935): write
`currentTime / duration * 100` to the progress-bar width and handle
offset (through `cssSetPct`), refresh the elapsed-time label. -/
def mainTimeupdateHandler (s : State) : State :=
  let p := jsPercentTimes100 s.mainTime s.mainDur
  { s with
    progressWidth := cssSetPct s.progressWidth p
    progressLeft := cssSetPct s.progressLeft p
    currentTimeText := formatTime s.mainTime }

/-- The `playButton` click listener (lines 768–773): hide the thumbnail,
reveal and play the ad, hide the play overlay. -/
def playButtonHandler (s : State) : State :=
  let s := { s with thumbnailHidden := true }
  let s := { s with adHidden := false }
  let s := adPlayCmd s
  { s with playOverlayHidden := true }

/-- The document-level click listener of `bindSettingsEvents`
(lines 1153–1160), run after any bubbling click whose target is not
inside `#settingsContainer`. -/
def docClickAway (s : State) : State :=
  if s.isSettingsOpen then
    { s with
      settingsMenuHidden := true
      speedSubmenuHidden := true
      qualitySubmenuHidden := true
      isSettingsOpen := false }
  else s

/-- The `volumeBtn` click listener (lines 999–1011): mute when audible,
restore to full volume when muted. -/
def volumeBtnHandler (s : State) : State :=
  if 0 < s.volume then
    { s with
      volume := 0, volumeSliderValue := 0
      volumeIconHidden := true, muteIconHidden := false }
  else
    { s with
      volume := 1, volumeSliderValue := 100
      volumeIconHidden := false, muteIconHidden := true }

/-- The `fullscreenBtn` click listener (lines 1027–1033) together with
the synchronously following `fullscreenchange` listener (1036–1044). -/
def fullscreenBtnHandler (s : State) : State :=
  if !s.isFullscreen then
    { s with
      isFullscreen := true
      fullscreenIconHidden := true, exitFullscreenIconHidden := false }
  else
    { s with
      isFullscreen := false
      fullscreenIconHidden := false, exitFullscreenIconHidden := true }

/-- The skip-backward click listener (lines 978–982), also the body of
the `ArrowLeft` key case (1188–1192): `currentTime = max(0, t - step)`,
then `showControls()`. -/
def seekBackwardAction (c : Config) (s : State) : State :=
  showControls (setCurrentTimeMain (max 0 (s.mainTime - c.skipBackwardSeconds)) s)

/-- The skip-forward click listener (lines 985–989), also the body of the
`ArrowRight` key case (1193–1197): `currentTime = min(duration, t + step)`,
then `showControls()`.  With an unknown (NaN) duration `Math.min` yields
NaN and the `currentTime` assignment throws a `TypeError`, aborting the
handler before `showControls` — hence the unchanged state. -/
def seekForwardAction (c : Config) (s : State) : State :=
  match s.mainDur with
  | none => s
  | some d =>
    showControls (setCurrentTimeMain (min d (s.mainTime + c.skipForwardSeconds)) s)

/-! ## The event alphabet and the guarded transition system -/

/-- The keys the document `keydown` listener distinguishes
(lines 1179–1217). -/
inductive Key where
  | space
  | kKey
  | left
  | right
  | up
  | down
  | fKey
  | mKey
  deriving DecidableEq, Repr

/-- The fixed speed menu entries created in `createSettingsMenu`
(lines 283–290): `data-speed` string and its `parseFloat` value. -/
def speedEntries : List (ℚ × String) :=
  [(1/2, "0.5"), (3/4, "0.75"), (1, "1"), (5/4, "1.25"), (3/2, "1.5"), (2, "2")]

/-- The fixed quality menu entries (lines 323–329): `data-quality` values. -/
def qualityEntries : List String :=
  ["auto", "1080p", "720p", "480p", "360p"]

/-- `quality.charAt(0).toUpperCase() + quality.slice(1)` (line 1138). -/
def capitalizeFirst (str : String) : String :=
  match str.data with
  | [] => ""
  | ch :: rest => String.mk (ch.toUpper :: rest)

/-- Every discrete occurrence the bound listeners can react to: user
clicks and key presses, pointer movement, media-engine notifications,
timer expiry, and host-facing API calls. -/
inductive Event where
  | clickPlayButton
  | clickSkipButton
  | adEnded
  | adTimeupdate (t : ℚ)
  | adLoadedMetadata (d : ℚ)
  | adWaiting
  | adCanPlay
  | adPlaying
  | adSeeking
  | adSeeked
  | mainLoadedMetadata (d : ℚ)
  | mainTimeupdate (t : ℚ)
  | mainWaiting
  | mainCanPlay
  | mainPlaying
  | mainSeeking
  | mainSeeked
  | mainEnded
  | clickMainVideo
  | clickCenterPlay
  | clickSkipBackward
  | clickSkipForward
  | clickProgressBar (frac : ℚ)
  | clickVolumeBtn
  | volumeSliderInput (v : ℚ)
  | clickFullscreenBtn
  | clickSettingsBtn
  | clickSpeedMenuBtn
  | clickQualityMenuBtn
  | clickSpeedOption (i : ℕ)
  | clickQualityOption (i : ℕ)
  | docClickOutside
  | keydown (k : Key)
  | pointerMove (r : Region)
  | hideTimerFire (id : ℕ)
  | apiPlay
  | apiPause
  | apiSetVolume (v : ℚ)
  | apiSeekTo (x : ℚ)
  | destroyCall
  deriving DecidableEq, Repr

/-- When an event can occur, as dictated by the DOM and the media engine:
a user click needs its target attached, visible and accepting pointer
events, with the pointer over the region holding the target; a media
notification needs the corresponding element activity (`timeupdate`
positions are nondecreasing during playback and bounded by the duration);
a timer can only fire while pending; API calls and the destroy call are
always available to the host. -/
def canFire (s : State) (e : Event) : Bool :=
  match e with
  | .clickPlayButton => s.listenersAttached && !s.playOverlayHidden
  | .clickSkipButton =>
      s.listenersAttached && !s.adOverlayHidden && s.skipButtonActive
  | .adEnded => s.listenersAttached && !s.adPaused
  | .adTimeupdate t =>
      s.listenersAttached && !s.adPaused && decide (s.adTime ≤ t) &&
      (match s.adDur with | none => true | some d => decide (t ≤ d))
  | .adLoadedMetadata d => s.listenersAttached && decide (0 ≤ d)
  | .adWaiting => s.listenersAttached
  | .adCanPlay => s.listenersAttached
  | .adPlaying => s.listenersAttached && !s.adPaused
  | .adSeeking => s.listenersAttached
  | .adSeeked => s.listenersAttached
  | .mainLoadedMetadata d => s.listenersAttached && decide (0 ≤ d)
  | .mainTimeupdate t =>
      s.listenersAttached &&
      ((!s.mainPaused && decide (s.mainTime ≤ t) &&
        (match s.mainDur with | none => true | some d => decide (t ≤ d))) ||
       decide (t = s.mainTime))
  | .mainWaiting => s.listenersAttached
  | .mainCanPlay => s.listenersAttached
  | .mainPlaying => s.listenersAttached && !s.mainPaused
  | .mainSeeking => s.listenersAttached
  | .mainSeeked => s.listenersAttached
  | .mainEnded => s.listenersAttached && !s.mainPaused
  | .clickMainVideo =>
      s.listenersAttached && !s.mainHidden && s.pointer == Region.container
  | .clickCenterPlay => s.listenersAttached && !s.controlsHidden
  | .clickSkipBackward => s.listenersAttached && !s.controlsHidden
  | .clickSkipForward => s.listenersAttached && !s.controlsHidden
  | .clickProgressBar frac =>
      s.listenersAttached && !s.controlsHidden &&
      s.pointer == Region.bottomBar && decide (0 ≤ frac) && decide (frac ≤ 1)
  | .clickVolumeBtn =>
      s.listenersAttached && !s.controlsHidden && s.pointer == Region.bottomBar
  | .volumeSliderInput v =>
      s.listenersAttached && !s.controlsHidden &&
      s.pointer == Region.bottomBar && decide (0 ≤ v) && decide (v ≤ 100)
  | .clickFullscreenBtn =>
      s.listenersAttached && !s.controlsHidden && s.pointer == Region.bottomBar
  | .clickSettingsBtn =>
      s.listenersAttached && !s.controlsHidden && s.pointer == Region.settingsArea
  | .clickSpeedMenuBtn =>
      s.listenersAttached && !s.controlsHidden &&
      s.pointer == Region.settingsArea && !s.settingsMenuHidden
  | .clickQualityMenuBtn =>
      s.listenersAttached && !s.controlsHidden &&
      s.pointer == Region.settingsArea && !s.settingsMenuHidden
  | .clickSpeedOption i =>
      s.listenersAttached && !s.controlsHidden &&
      s.pointer == Region.settingsArea && !s.settingsMenuHidden &&
      !s.speedSubmenuHidden && decide (i < speedEntries.length)
  | .clickQualityOption i =>
      s.listenersAttached && !s.controlsHidden &&
      s.pointer == Region.settingsArea && !s.settingsMenuHidden &&
      !s.qualitySubmenuHidden && decide (i < qualityEntries.length)
  | .docClickOutside => s.listenersAttached
  | .keydown _ => s.listenersAttached
  | .pointerMove r =>
      s.listenersAttached &&
      (match r with
       | Region.bottomBar => !s.controlsHidden
       | Region.settingsArea => !s.controlsHidden
       | _ => true)
  | .hideTimerFire id => decide (id ∈ s.timers)
  | .apiPlay => true
  | .apiPause => true
  | .apiSetVolume _ => true
  | .apiSeekTo _ => true
  | .destroyCall => true

/-- `#bottomControls` `mouseleave` (lines 1076–1079), fired when the
pointer moves off the bottom bar. -/
def pmBottomLeave (r old : Region) (s : State) : State :=
  if old == Region.bottomBar && r != Region.bottomBar then
    showControls { s with isUserInteracting := false }
  else s

/-- `#settingsContainer` `mouseleave` (lines 1168–1173). -/
def pmSettingsLeave (r old : Region) (s : State) : State :=
  if old == Region.settingsArea && r != Region.settingsArea then
    (if !s.isSettingsOpen then showControls { s with isUserInteracting := false }
     else s)
  else s

/-- Container `mouseleave` (lines 1059–1068), fired when the pointer
leaves the player entirely. -/
def pmContainerLeave (r old : Region) (s : State) : State :=
  if old != Region.outside && r == Region.outside then
    (if !s.mainPaused && !s.controlsHidden && !s.isSettingsOpen then
      hideAllControls s
     else s)
  else s

/-- Container `mouseenter` (lines 1053–1057). -/
def pmContainerEnter (r old : Region) (s : State) : State :=
  if old == Region.outside && r != Region.outside then
    (if !s.controlsHidden then showControls s else s)
  else s

/-- `#bottomControls` `mouseenter` (lines 1071–1074). -/
def pmBottomEnter (r old : Region) (s : State) : State :=
  if r == Region.bottomBar && old != Region.bottomBar then
    clearHideTimeout { s with isUserInteracting := true }
  else s

/-- `#settingsContainer` `mouseenter` (lines 1163–1166). -/
def pmSettingsEnter (r old : Region) (s : State) : State :=
  if r == Region.settingsArea && old != Region.settingsArea then
    clearHideTimeout { s with isUserInteracting := true }
  else s

/-- Container `mousemove` (lines 1047–1051), which bubbles up from any
movement inside the container. -/
def pmMousemove (r : Region) (s : State) : State :=
  if r != Region.outside then
    (if !s.controlsHidden then showControls s else s)
  else s

/-- Pointer movement to region `r`: the `mouseleave`, `mouseenter` and
`mousemove` listeners the move triggers, composed in DOM dispatch order
(inner leaves, container leave/enter, inner enters, then the bubbling
container `mousemove`); each handler observes the mutations made by the
previous ones. -/
def pointerMoveEffect (r : Region) (s0 : State) : State :=
  let old := s0.pointer
  pmMousemove r
    (pmSettingsEnter r old
      (pmBottomEnter r old
        (pmContainerEnter r old
          (pmContainerLeave r old
            (pmSettingsLeave r old
              (pmBottomLeave r old { s0 with pointer := r }))))))

/-- The document `keydown` listener (lines 1179–1217).  The `f` and `m`
cases dispatch a synthetic click, which bubbles to the document click
listener (none of the two button handlers stops propagation). -/
def keydownHandler (c : Config) (k : Key) (s : State) : State :=
  if s.controlsHidden then s else
  match k with
  | .space => togglePlayPause s
  | .kKey => togglePlayPause s
  | .left => seekBackwardAction c s
  | .right => seekForwardAction c s
  | .up =>
      let s := { s with volume := min 1 (s.volume + 1/10) }
      { s with volumeSliderValue := s.volume * 100 }
  | .down =>
      let s := { s with volume := max 0 (s.volume - 1/10) }
      { s with volumeSliderValue := s.volume * 100 }
  | .fKey => docClickAway (fullscreenBtnHandler s)
  | .mKey => docClickAway (volumeBtnHandler s)

/-- The `speed-option` click listener (lines 1112–1129). -/
def speedOptionHandler (i : ℕ) (s : State) : State :=
  match speedEntries.get? i with
  | none => s
  | some e =>
    { s with
      playbackRate := e.fst
      speedLabel := if e.fst = 1 then "1x" else e.snd ++ "x"
      speedSubmenuHidden := true
      settingsMenuHidden := true
      isSettingsOpen := false }

/-- The `quality-option` click listener (lines 1132–1150). -/
def qualityOptionHandler (i : ℕ) (s : State) : State :=
  match qualityEntries.get? i with
  | none => s
  | some q =>
    { s with
      qualityLabel := capitalizeFirst q
      qualitySubmenuHidden := true
      settingsMenuHidden := true
      isSettingsOpen := false }

/-- The effect of each event: the bound listener(s) it triggers,
composed in dispatch order.  Click handlers that do not call
`stopPropagation` are followed by the bubbling document click listener
(`docClickAway`). -/
def applyEvent (c : Config) (s : State) (e : Event) : State :=
  match e with
  | .clickPlayButton => docClickAway (playButtonHandler s)
  | .clickSkipButton => docClickAway (skipToMainVideo s)
  | .adEnded => skipToMainVideo s
  | .adTimeupdate t => adTimeupdateHandler c { s with adTime := t }
  | .adLoadedMetadata d =>
      { s with adDur := some d, adDurationFloor := ⌊d⌋ }
  | .adWaiting => { s with adSpinnerHidden := false }
  | .adCanPlay => { s with adSpinnerHidden := true }
  | .adPlaying => { s with adSpinnerHidden := true }
  | .adSeeking => { s with adSpinnerHidden := false }
  | .adSeeked => { s with adSpinnerHidden := true }
  | .mainLoadedMetadata d =>
      { s with mainDur := some d, durationText := formatTime d }
  | .mainTimeupdate t => mainTimeupdateHandler { s with mainTime := t }
  | .mainWaiting => { s with spinnerHidden := false }
  | .mainCanPlay => { s with spinnerHidden := true }
  | .mainPlaying => { s with spinnerHidden := true }
  | .mainSeeking => { s with spinnerHidden := false }
  | .mainSeeked => { s with spinnerHidden := true }
  | .mainEnded => mainPauseHandler { s with mainPaused := true }
  | .clickMainVideo => docClickAway (togglePlayPause s)
  | .clickCenterPlay => togglePlayPause s
  | .clickSkipBackward => seekBackwardAction c s
  | .clickSkipForward => seekForwardAction c s
  | .clickProgressBar frac =>
      docClickAway
        (match s.mainDur with
         | none => s
         | some d => setCurrentTimeMain (frac * d) s)
  | .clickVolumeBtn => docClickAway (volumeBtnHandler s)
  | .volumeSliderInput v =>
      let vol := v / 100
      let s := { s with volume := vol, volumeSliderValue := v }
      if vol = 0 then
        { s with volumeIconHidden := true, muteIconHidden := false }
      else
        { s with volumeIconHidden := false, muteIconHidden := true }
  | .clickFullscreenBtn => docClickAway (fullscreenBtnHandler s)
  | .clickSettingsBtn =>
      let s := { s with
        isSettingsOpen := !s.isSettingsOpen
        settingsMenuHidden := !s.settingsMenuHidden }
      if s.isSettingsOpen then
        { s with speedSubmenuHidden := true, qualitySubmenuHidden := true }
      else s
  | .clickSpeedMenuBtn =>
      { s with
        speedSubmenuHidden := !s.speedSubmenuHidden
        qualitySubmenuHidden := true }
  | .clickQualityMenuBtn =>
      { s with
        qualitySubmenuHidden := !s.qualitySubmenuHidden
        speedSubmenuHidden := true }
  | .clickSpeedOption i => speedOptionHandler i s
  | .clickQualityOption i => qualityOptionHandler i s
  | .docClickOutside => docClickAway s
  | .keydown k => keydownHandler c k s
  | .pointerMove r => pointerMoveEffect r s
  | .hideTimerFire id =>
      hideAllControls { s with timers := s.timers.erase id }
  | .apiPlay => mainPlayCmd s
  | .apiPause => mainPauseCmd s
  | .apiSetVolume v =>
      let s := { s with volume := max 0 (min 1 v) }
      { s with volumeSliderValue := s.volume * 100 }
  | .apiSeekTo x => setCurrentTimeMain x s
  | .destroyCall => clearHideTimeout s

/-- One step of the guarded transition system: an event that cannot
occur leaves the state unchanged. -/
def step (c : Config) (s : State) (e : Event) : State :=
  if canFire s e then applyEvent c s e else s

/-- Run a sequence of events. -/
def run (c : Config) (s : State) : List Event → State
  | [] => s
  | e :: es => run c (step c s e) es

/-- How many playback commands (`play()` / `pause()` calls) the listener
for an event issues to the ad media element: the play-button click plays
the ad; the skip-button click and the ad `ended` notification run
`skipToMainVideo`, which pauses it. -/
def adCmdCount : Event → ℕ
  | .clickPlayButton => 1
  | .clickSkipButton => 1
  | .adEnded => 1
  | _ => 0

/-- Total number of playback commands issued to the ad element while
running a sequence of events (commands of events that cannot fire do
not happen). -/
def adCmdTrace (c : Config) (s : State) : List Event → ℕ
  | [] => 0
  | e :: es =>
    (if canFire s e then adCmdCount e else 0) + adCmdTrace c (step c s e) es


/-! ## Projection lemmas for the composite handlers

`showControls` only changes the six opacity flags and the timer state;
`clearHideTimeout` only changes the pending-timer list.  These lemmas
record the fields they leave alone (stated only for the fields the
claims below reason about). -/

theorem clearHideTimeout_mainTime (s : State) :
    (clearHideTimeout s).mainTime = s.mainTime := by
  unfold clearHideTimeout; split <;> rfl

theorem showControls_mainTime (s : State) :
    (showControls s).mainTime = s.mainTime := by
  dsimp only [showControls, showAllControls, clearHideTimeout, armHideTimeout]
  split <;> split <;> rfl

theorem showControls_mainDur (s : State) :
    (showControls s).mainDur = s.mainDur := by
  dsimp only [showControls, showAllControls, clearHideTimeout, armHideTimeout]
  split <;> split <;> rfl

theorem showControls_adPaused (s : State) :
    (showControls s).adPaused = s.adPaused := by
  dsimp only [showControls, showAllControls, clearHideTimeout, armHideTimeout]
  split <;> split <;> rfl

theorem showControls_adTime (s : State) :
    (showControls s).adTime = s.adTime := by
  dsimp only [showControls, showAllControls, clearHideTimeout, armHideTimeout]
  split <;> split <;> rfl

theorem showControls_adHidden (s : State) :
    (showControls s).adHidden = s.adHidden := by
  dsimp only [showControls, showAllControls, clearHideTimeout, armHideTimeout]
  split <;> split <;> rfl

theorem showControls_adOverlayHidden (s : State) :
    (showControls s).adOverlayHidden = s.adOverlayHidden := by
  dsimp only [showControls, showAllControls, clearHideTimeout, armHideTimeout]
  split <;> split <;> rfl

theorem showControls_mainHidden (s : State) :
    (showControls s).mainHidden = s.mainHidden := by
  dsimp only [showControls, showAllControls, clearHideTimeout, armHideTimeout]
  split <;> split <;> rfl

theorem showControls_controlsHidden (s : State) :
    (showControls s).controlsHidden = s.controlsHidden := by
  dsimp only [showControls, showAllControls, clearHideTimeout, armHideTimeout]
  split <;> split <;> rfl

theorem showControls_mainPaused (s : State) :
    (showControls s).mainPaused = s.mainPaused := by
  dsimp only [showControls, showAllControls, clearHideTimeout, armHideTimeout]
  split <;> split <;> rfl

theorem showControls_thumbnailHidden (s : State) :
    (showControls s).thumbnailHidden = s.thumbnailHidden := by
  dsimp only [showControls, showAllControls, clearHideTimeout, armHideTimeout]
  split <;> split <;> rfl

theorem showControls_playOverlayHidden (s : State) :
    (showControls s).playOverlayHidden = s.playOverlayHidden := by
  dsimp only [showControls, showAllControls, clearHideTimeout, armHideTimeout]
  split <;> split <;> rfl

theorem showControls_skipButtonActive (s : State) :
    (showControls s).skipButtonActive = s.skipButtonActive := by
  dsimp only [showControls, showAllControls, clearHideTimeout, armHideTimeout]
  split <;> split <;> rfl

theorem showControls_isUserInteracting (s : State) :
    (showControls s).isUserInteracting = s.isUserInteracting := by
  dsimp only [showControls, showAllControls, clearHideTimeout, armHideTimeout]
  split <;> split <;> rfl

theorem showControls_isSettingsOpen (s : State) :
    (showControls s).isSettingsOpen = s.isSettingsOpen := by
  dsimp only [showControls, showAllControls, clearHideTimeout, armHideTimeout]
  split <;> split <;> rfl

theorem showControls_pointer (s : State) :
    (showControls s).pointer = s.pointer := by
  dsimp only [showControls, showAllControls, clearHideTimeout, armHideTimeout]
  split <;> split <;> rfl

theorem showControls_listenersAttached (s : State) :
    (showControls s).listenersAttached = s.listenersAttached := by
  dsimp only [showControls, showAllControls, clearHideTimeout, armHideTimeout]
  split <;> split <;> rfl

/-! ## A concrete configuration for the concrete-input theorems -/

/-- A fully defaulted configuration with an ad source and `skipAfter` 5. -/
def cfg0 : Config where
  wrapperId := "player"
  mainUrl := "main.mp4"
  mainTitle := "Untitled Video"
  mainDescription := "No description available"
  mainMime := "video/mp4"
  adUrl := "ad.mp4"
  skipAfter := 5
  adMime := "video/mp4"
  thumbnailUrl := "main.mp4"
  skipBackwardSeconds := 10
  skipForwardSeconds := 10
  autoHideControlsDelay := 3000
  infoText := "info"

/-! ## C6: `skipToMainVideo` is idempotent -/

theorem skipToMainVideo_fields (s : State) :
    (skipToMainVideo s).adPaused = true ∧
    (skipToMainVideo s).adTime = 0 ∧
    (skipToMainVideo s).adHidden = true ∧
    (skipToMainVideo s).adOverlayHidden = true ∧
    (skipToMainVideo s).mainHidden = false ∧
    (skipToMainVideo s).controlsHidden = false ∧
    (skipToMainVideo s).mainPaused = false := by
  dsimp only [skipToMainVideo, adPauseCmd, mainPlayCmd, mainPlayHandler,
    updatePlayPauseIcons]
  split <;>
    simp_all [showControls_adPaused, showControls_adTime, showControls_adHidden,
      showControls_adOverlayHidden, showControls_mainHidden,
      showControls_controlsHidden, showControls_mainPaused]

theorem skipToMainVideo_fixed (t : State)
    (h1 : t.adPaused = true) (h2 : t.adTime = 0) (h3 : t.adHidden = true)
    (h4 : t.adOverlayHidden = true) (h5 : t.mainHidden = false)
    (h6 : t.controlsHidden = false) (h7 : t.mainPaused = false) :
    skipToMainVideo t = t := by
  cases t
  simp_all [skipToMainVideo, adPauseCmd, mainPlayCmd]

/-- C6: `advanceToMain` (`skipToMainVideo`, invoked by the skip button or
the ad `ended` notification) is idempotent: a second invocation produces
exactly the same player state as the first — ad paused at position zero
and hidden, main content revealed and playing — with no additional
effect (the second `mainVideo.play()` on an already playing element
fires no notification). -/
theorem c6_skipToMainVideo_idempotent (s : State) :
    skipToMainVideo (skipToMainVideo s) = skipToMainVideo s ∧
    (skipToMainVideo s).adPaused = true ∧
    (skipToMainVideo s).adTime = 0 ∧
    (skipToMainVideo s).adHidden = true ∧
    (skipToMainVideo s).adOverlayHidden = true ∧
    (skipToMainVideo s).mainHidden = false ∧
    (skipToMainVideo s).controlsHidden = false ∧
    (skipToMainVideo s).mainPaused = false := by
  obtain ⟨h1, h2, h3, h4, h5, h6, h7⟩ := skipToMainVideo_fields s
  exact ⟨skipToMainVideo_fixed _ h1 h2 h3 h4 h5 h6 h7, h1, h2, h3, h4, h5, h6, h7⟩

/-! ## C2: behaviour of the initial play affordance -/

/-- The configuration produced from an input with no ad source at all
(so `adVideo.url` defaults to the empty string). -/
def cfgNoAd : Config where
  wrapperId := "player"
  mainUrl := ""
  mainTitle := "Untitled Video"
  mainDescription := "No description available"
  mainMime := "video/mp4"
  adUrl := ""
  skipAfter := 5
  adMime := "video/mp4"
  thumbnailUrl := ""
  skipBackwardSeconds := 10
  skipForwardSeconds := 10
  autoHideControlsDelay := 3000
  infoText := "Video akan memutar iklan terlebih dahulu. Klik tombol Skip setelah beberapa detik atau tunggu hingga iklan selesai."

/-- C2 (counterexample): with an empty ad URL, activating the initial
play affordance still enters the ad stage — the ad element is revealed
and told to play while main content stays hidden and paused — instead of
revealing and starting main content directly. -/
theorem c2_counterexample :
    mkConfig { wrapperId := some "player" } = some cfgNoAd ∧
    cfgNoAd.adUrl = "" ∧
    (step cfgNoAd (initState cfgNoAd) Event.clickPlayButton).adHidden = false ∧
    (step cfgNoAd (initState cfgNoAd) Event.clickPlayButton).adPaused = false ∧
    (step cfgNoAd (initState cfgNoAd) Event.clickPlayButton).mainHidden = true ∧
    (step cfgNoAd (initState cfgNoAd) Event.clickPlayButton).mainPaused = true := by
  refine ⟨by decide, by decide, ?_, ?_, ?_, ?_⟩ <;> decide

/-- C2 (amended): for every configuration — in particular one with an
empty ad URL — the play-button click handler unconditionally enters the
ad stage: it hides the thumbnail and the play overlay, reveals the ad
element and issues it a play command; main content is neither revealed
nor started. -/
theorem c2_amended_start_always_enters_ad_stage (c : Config) :
    (step c (initState c) Event.clickPlayButton).thumbnailHidden = true ∧
    (step c (initState c) Event.clickPlayButton).adHidden = false ∧
    (step c (initState c) Event.clickPlayButton).adPaused = false ∧
    (step c (initState c) Event.clickPlayButton).playOverlayHidden = true ∧
    (step c (initState c) Event.clickPlayButton).mainHidden = true ∧
    (step c (initState c) Event.clickPlayButton).mainPaused = true := by
  simp [step, canFire, initState, applyEvent, playButtonHandler, adPlayCmd,
    adPlayHandler, docClickAway]

/-! ## C1: the progress display on main `timeupdate` -/

/-- C1: on a main-video position update, if the duration is not yet
known (NaN) or zero, the displayed progress-bar fill and handle offset
are left unchanged (the computed percentage is non-finite, which the
CSSOM rejects); whenever the duration is positive the displayed percent
equals `clamp(position / duration, 0, 1) × 100`. -/
theorem c1_progress_percent (s : State) :
    ((s.mainDur = none ∨ s.mainDur = some 0) →
      (mainTimeupdateHandler s).progressWidth = s.progressWidth ∧
      (mainTimeupdateHandler s).progressLeft = s.progressLeft) ∧
    (∀ d : ℚ, s.mainDur = some d → 0 < d →
      0 ≤ s.mainTime → s.mainTime ≤ d →
      (mainTimeupdateHandler s).progressWidth = max 0 (min (s.mainTime / d) 1) * 100 ∧
      (mainTimeupdateHandler s).progressLeft = max 0 (min (s.mainTime / d) 1) * 100) := by
  constructor
  · rintro (h | h) <;>
      simp [mainTimeupdateHandler, jsPercentTimes100, cssSetPct, h]
  · intro d hd hdpos h0 h1
    have hle : s.mainTime / d ≤ 1 := by
      rw [div_le_one hdpos]; exact h1
    have hge : 0 ≤ s.mainTime / d := div_nonneg h0 hdpos.le
    have hclamp : max 0 (min (s.mainTime / d) 1) = s.mainTime / d := by
      rw [min_eq_left hle, max_eq_right hge]
    rw [hclamp]
    constructor <;>
      simp [mainTimeupdateHandler, jsPercentTimes100, cssSetPct, hd, hdpos.ne']

/-- C1 (witness): the guard case at an unknown duration leaves a 37%
fill untouched, and a position update at 50 of 200 displays 25%. -/
theorem c1_progress_percent_witness :
    (mainTimeupdateHandler { initState cfg0 with progressWidth := 37 }).progressWidth = 37 ∧
    (mainTimeupdateHandler
      { initState cfg0 with mainDur := some 200, mainTime := 50 }).progressWidth =
      max 0 (min ((50 : ℚ) / 200) 1) * 100 := by
  constructor
  · exact ((c1_progress_percent _).1 (Or.inl (by decide))).1
  · exact ((c1_progress_percent _).2 200 (by decide) (by decide) (by decide) (by decide)).1

/-! ## C7: seek-by-offset clamps at both ends -/

/-- C7: the backward/forward seek operations (buttons and the
ArrowLeft / ArrowRight shortcuts share these handler bodies) move the
position to `clamp(current ∓ step, 0, duration)`; consequently a
backward seek at position 0 stays at 0 and a forward seek at the
duration stays at the duration. -/
theorem c7_seek_by_offset_clamps (c : Config) (s : State) (d : ℚ)
    (hd : s.mainDur = some d) (hd0 : 0 ≤ d)
    (h0 : 0 ≤ s.mainTime) (h1 : s.mainTime ≤ d)
    (hb : 0 ≤ c.skipBackwardSeconds) (hf : 0 ≤ c.skipForwardSeconds) :
    (seekBackwardAction c s).mainTime =
      max 0 (min (s.mainTime - c.skipBackwardSeconds) d) ∧
    (seekForwardAction c s).mainTime =
      max 0 (min (s.mainTime + c.skipForwardSeconds) d) ∧
    (s.mainTime = 0 → (seekBackwardAction c s).mainTime = 0) ∧
    (s.mainTime = d → (seekForwardAction c s).mainTime = d) := by
  have hset : ∀ x : ℚ, (setCurrentTimeMain x s).mainTime = max 0 (min x d) := by
    intro x; simp [setCurrentTimeMain, hd]
  have hback : (seekBackwardAction c s).mainTime =
      max 0 (min (max 0 (s.mainTime - c.skipBackwardSeconds)) d) := by
    simp [seekBackwardAction, showControls_mainTime, hset]
  have hfwd : (seekForwardAction c s).mainTime =
      max 0 (min (min d (s.mainTime + c.skipForwardSeconds)) d) := by
    simp [seekForwardAction, hd, showControls_mainTime, hset]
  refine ⟨?_, ?_, ?_, ?_⟩
  · rw [hback]
    rcases le_total 0 (s.mainTime - c.skipBackwardSeconds) with hc | hc
    · rw [max_eq_right hc]
    · rw [max_eq_left hc, min_eq_left hd0, min_eq_left (hc.trans hd0),
        max_eq_left hc]
      simp
  · rw [hfwd, min_eq_left (min_le_left d _), min_comm]
  · intro ht
    rw [hback, ht]
    have h2 : (0 : ℚ) - c.skipBackwardSeconds ≤ 0 := by linarith
    rw [max_eq_left h2, min_eq_left hd0]
    simp
  · intro ht
    rw [hfwd, ht,
      min_eq_left (by linarith : d ≤ d + c.skipForwardSeconds), min_self,
      max_eq_right hd0]

/-- C7 (witness): with the default 10-second steps on a 100-second
video at position 50, backward lands at 40 and forward at 60; at the
boundaries the seeks are fixed points. -/
theorem c7_seek_by_offset_clamps_witness :
    (seekBackwardAction cfg0
      { initState cfg0 with mainDur := some 100, mainTime := 50 }).mainTime = 40 ∧
    (seekForwardAction cfg0
      { initState cfg0 with mainDur := some 100, mainTime := 50 }).mainTime = 60 ∧
    (seekBackwardAction cfg0
      { initState cfg0 with mainDur := some 100, mainTime := 0 }).mainTime = 0 ∧
    (seekForwardAction cfg0
      { initState cfg0 with mainDur := some 100, mainTime := 100 }).mainTime = 100 := by
  have h50 := c7_seek_by_offset_clamps cfg0
    { initState cfg0 with mainDur := some 100, mainTime := 50 } 100
    (by decide) (by decide) (by decide) (by decide) (by decide) (by decide)
  have h0 := c7_seek_by_offset_clamps cfg0
    { initState cfg0 with mainDur := some 100, mainTime := 0 } 100
    (by decide) (by decide) (by decide) (by decide) (by decide) (by decide)
  have h100 := c7_seek_by_offset_clamps cfg0
    { initState cfg0 with mainDur := some 100, mainTime := 100 } 100
    (by decide) (by decide) (by decide) (by decide) (by decide) (by decide)
  refine ⟨?_, ?_, ?_, ?_⟩
  · rw [h50.1]; norm_num [initState, cfg0]
  · rw [h50.2.1]; norm_num [initState, cfg0]
  · exact h0.2.2.1 (by decide)
  · exact h100.2.2.2 (by decide)

/-! ## C8: the public `seekTo` never leaves `[0, duration]` -/

/-- C8: a `seekTo` call with a target beyond the known duration results
in a position clamped to the duration, a negative target results in
position 0, and the resulting position always lies in `[0, duration]`
(the clamping is performed by the media engine's `currentTime` setter,
`seekTo` itself assigns the raw value). -/
theorem c8_seekTo_clamps (c : Config) (s : State) (x d : ℚ)
    (hd : s.mainDur = some d) (hd0 : 0 ≤ d) :
    (d < x → (step c s (Event.apiSeekTo x)).mainTime = d) ∧
    (x < 0 → (step c s (Event.apiSeekTo x)).mainTime = 0) ∧
    0 ≤ (step c s (Event.apiSeekTo x)).mainTime ∧
    (step c s (Event.apiSeekTo x)).mainTime ≤ d := by
  have hs : (step c s (Event.apiSeekTo x)).mainTime = max 0 (min x d) := by
    simp [step, canFire, applyEvent, setCurrentTimeMain, hd]
  rw [hs]
  refine ⟨?_, ?_, le_max_left 0 _, max_le hd0 (min_le_right x d)⟩
  · intro hlt
    rw [min_eq_right hlt.le, max_eq_right hd0]
  · intro hneg
    rw [min_eq_left (by linarith), max_eq_left (by linarith)]

/-- C8 (witness): seeking to 1000 on a 100-second video lands at 100,
seeking to −5 lands at 0. -/
theorem c8_seekTo_clamps_witness :
    (step cfg0 { initState cfg0 with mainDur := some 100 }
      (Event.apiSeekTo 1000)).mainTime = 100 ∧
    (step cfg0 { initState cfg0 with mainDur := some 100 }
      (Event.apiSeekTo (-5))).mainTime = 0 := by
  constructor
  · exact (c8_seekTo_clamps cfg0 _ 1000 100 (by decide) (by decide)).1 (by decide)
  · exact (c8_seekTo_clamps cfg0 _ (-5) 100 (by decide) (by decide)).2.1 (by decide)

/-! ## C10: a configured 0 is indistinguishable from an absent value -/

/-- C10: because the constructor defaults with falsy-coalescing `||`, a
configured `adVideo.skipAfter` of `0` stores the default threshold 5 (so
the skip button is not immediately available: an update with elapsed
under 5 seconds leaves it inert), and a configured
`autoHideControlsDelay` of `0` stores the default 3000 ms. -/
theorem c10_zero_config_uses_defaults (i : ConfigInput) (c : Config)
    (h : mkConfig i = some c) :
    (i.adVideo.bind AdVideoInput.skipAfter = some 0 →
      c.skipAfter = 5 ∧
      ∀ s : State, s.skipButtonActive = false → 0 ≤ s.adTime → s.adTime < 5 →
        (adTimeupdateHandler c s).skipButtonActive = false ∧
        (adTimeupdateHandler c s).skipCountdownHidden = s.skipCountdownHidden) ∧
    (i.autoHideControlsDelay = some 0 → c.autoHideControlsDelay = 3000) := by
  unfold mkConfig at h
  split at h
  next => exact absurd h (by simp)
  next w hw =>
    split at h
    next => exact absurd h (by simp)
    next hne =>
      injection h with h
      subst h
      constructor
      · intro h0
        have hsk : (jsOrNum (i.adVideo.bind AdVideoInput.skipAfter) 5) = 5 := by
          rw [h0]; simp [jsOrNum]
        refine ⟨hsk, ?_⟩
        intro s hsb h0t hlt
        have hfl : (⌊s.adTime⌋ : ℚ) < 5 := by
          have h5 : ⌊s.adTime⌋ < (5 : ℤ) := by
            rw [Int.floor_lt]
            exact_mod_cast hlt
          exact_mod_cast h5
        dsimp only [adTimeupdateHandler]
        rw [if_neg (by rw [hsk]; linarith)]
        exact ⟨hsb, rfl⟩
      · intro h1
        show jsOrNum i.autoHideControlsDelay 3000 = 3000
        rw [h1]; simp [jsOrNum]

/-- The constructor input with explicit zeros for both numeric fields. -/
def inputZeros : ConfigInput where
  wrapperId := some "player"
  adVideo := some { url := some "ad.mp4", skipAfter := some 0 }
  autoHideControlsDelay := some 0

/-- C10 (witness): constructing with `skipAfter: 0` and
`autoHideControlsDelay: 0` stores 5 and 3000. -/
theorem c10_zero_config_uses_defaults_witness :
    ∃ c : Config, mkConfig inputZeros = some c ∧
      c.skipAfter = 5 ∧ c.autoHideControlsDelay = 3000 := by
  obtain ⟨c, hc⟩ : ∃ c, mkConfig inputZeros = some c := ⟨_, rfl⟩
  have h := c10_zero_config_uses_defaults inputZeros c hc
  exact ⟨c, hc, (h.1 (by decide)).1, h.2 (by decide)⟩

/-! ## C9: what `destroy()` actually tears down -/

/-- C9 (counterexample): after entering the main stage (which arms the
auto-hide timer) and calling `destroy()`, the pending timer is cancelled
— but the document-level `keydown` listener still fires: a space key
press after `destroy()` still pauses the main video.  A handler
registered by the instance ran after `destroy()`, refuting the claim. -/
theorem c9_counterexample :
    (step cfg0 (run cfg0 (initState cfg0) [Event.clickPlayButton, Event.adEnded])
        Event.destroyCall).timers = [] ∧
    (step cfg0 (run cfg0 (initState cfg0) [Event.clickPlayButton, Event.adEnded])
        Event.destroyCall).listenersAttached = true ∧
    canFire (step cfg0 (run cfg0 (initState cfg0) [Event.clickPlayButton, Event.adEnded])
        Event.destroyCall) (Event.keydown Key.space) = true ∧
    (step cfg0 (run cfg0 (initState cfg0) [Event.clickPlayButton, Event.adEnded])
        Event.destroyCall).mainPaused = false ∧
    (step cfg0
      (step cfg0 (run cfg0 (initState cfg0) [Event.clickPlayButton, Event.adEnded])
        Event.destroyCall)
      (Event.keydown Key.space)).mainPaused = true := by
  refine ⟨?_, ?_, ?_, ?_, ?_⟩ <;> decide

/-- C9 (amended): `destroy()` cancels the pending auto-hide timer and
nothing else: it is exactly the `clearTimeout` effect, it leaves every
event subscription attached (the document-level `keydown` listener is
exactly as available as before), and the armed hide timer can no longer
fire. -/
theorem c9_amended_destroy_only_cancels_timer (c : Config) (s : State)
    (hnd : s.timers.Nodup) :
    step c s Event.destroyCall = clearHideTimeout s ∧
    (step c s Event.destroyCall).listenersAttached = s.listenersAttached ∧
    (∀ k : Key, canFire (step c s Event.destroyCall) (Event.keydown k) =
      s.listenersAttached) ∧
    (∀ h : ℕ, s.hideControlsTimeout = some h →
      canFire (step c s Event.destroyCall) (Event.hideTimerFire h) = false) := by
  have hstep : step c s Event.destroyCall = clearHideTimeout s := by
    simp [step, canFire, applyEvent]
  refine ⟨hstep, ?_, ?_, ?_⟩
  · rw [hstep]; unfold clearHideTimeout; split <;> rfl
  · intro k
    rw [hstep]
    have hl : (clearHideTimeout s).listenersAttached = s.listenersAttached := by
      unfold clearHideTimeout; split <;> rfl
    simp [canFire, hl]
  · intro h hh
    rw [hstep]
    unfold clearHideTimeout
    rw [hh]
    simp [canFire, List.Nodup.mem_erase_iff hnd]

/-- C9 (amended, witness): a concrete instantiation of the amended
claim at a state with an armed timer. -/
theorem c9_amended_destroy_only_cancels_timer_witness :
    step cfg0 (run cfg0 (initState cfg0) [Event.clickPlayButton, Event.adEnded])
        Event.destroyCall =
      clearHideTimeout (run cfg0 (initState cfg0) [Event.clickPlayButton, Event.adEnded]) ∧
    canFire (step cfg0 (run cfg0 (initState cfg0) [Event.clickPlayButton, Event.adEnded])
        Event.destroyCall) (Event.keydown Key.mKey) = true ∧
    canFire (step cfg0 (run cfg0 (initState cfg0) [Event.clickPlayButton, Event.adEnded])
        Event.destroyCall) (Event.hideTimerFire 0) = false := by
  have h := c9_amended_destroy_only_cancels_timer cfg0
    (run cfg0 (initState cfg0) [Event.clickPlayButton, Event.adEnded]) (by decide)
  refine ⟨h.1, ?_, ?_⟩
  · rw [h.2.2.1 Key.mKey]; decide
  · exact h.2.2.2 0 (by decide)

/-! ## C5: the skip threshold on ad position updates -/

theorem adTimeupdateHandler_facts (c : Config) (u : State) (t : ℚ) :
    (adTimeupdateHandler c { u with adTime := t }).adTime = t ∧
    (adTimeupdateHandler c { u with adTime := t }).adPaused = u.adPaused ∧
    (adTimeupdateHandler c { u with adTime := t }).listenersAttached = u.listenersAttached ∧
    (adTimeupdateHandler c { u with adTime := t }).adDur = u.adDur ∧
    (c.skipAfter ≤ (⌊t⌋ : ℚ) →
      (adTimeupdateHandler c { u with adTime := t }).skipButtonActive = true ∧
      (adTimeupdateHandler c { u with adTime := t }).skipCountdownHidden = true) ∧
    ((⌊t⌋ : ℚ) < c.skipAfter →
      (adTimeupdateHandler c { u with adTime := t }).skipButtonActive = u.skipButtonActive ∧
      (adTimeupdateHandler c { u with adTime := t }).skipCountdownHidden = u.skipCountdownHidden ∧
      (adTimeupdateHandler c { u with adTime := t }).skipTimerVal = c.skipAfter - (⌊t⌋ : ℚ)) := by
  dsimp only [adTimeupdateHandler]
  split
  next h =>
    exact ⟨rfl, rfl, rfl, rfl, fun _ => ⟨rfl, rfl⟩,
      fun hlt => absurd h (not_le.mpr hlt)⟩
  next h =>
    exact ⟨rfl, rfl, rfl, rfl, fun hge => absurd hge h,
      fun _ => ⟨rfl, rfl, rfl⟩⟩

theorem adTimeupdate_canFire (s : State) (t : ℚ)
    (hl : s.listenersAttached = true) (hp : s.adPaused = false)
    (hle : s.adTime ≤ t)
    (hdur : ∀ dd, s.adDur = some dd → t ≤ dd) :
    canFire s (Event.adTimeupdate t) = true := by
  simp only [canFire, hl, hp, Bool.not_false, Bool.true_and, Bool.and_true]
  cases had : s.adDur with
  | none => simp [hle]
  | some dd => simp [hle, hdur dd had]

/-- Running a nondecreasing sequence of ad `timeupdate` notifications
ending at position `t`: if the final whole-seconds position has reached
the threshold the skip control ends visible and interactive (and the
countdown hidden); if it is still below the threshold no update has
touched the skip control and the countdown shows `skipAfter − ⌊t⌋`. -/
theorem adTimeupdates_run (c : Config) (ts : List ℚ) :
    ∀ (s : State) (t : ℚ),
    s.listenersAttached = true → s.adPaused = false →
    List.Chain (· ≤ ·) s.adTime (ts ++ [t]) →
    (∀ x ∈ ts ++ [t], ∀ dd, s.adDur = some dd → x ≤ dd) →
    (run c s ((ts ++ [t]).map Event.adTimeupdate)).adTime = t ∧
    (c.skipAfter ≤ (⌊t⌋ : ℚ) →
      (run c s ((ts ++ [t]).map Event.adTimeupdate)).skipButtonActive = true ∧
      (run c s ((ts ++ [t]).map Event.adTimeupdate)).skipCountdownHidden = true) ∧
    ((⌊t⌋ : ℚ) < c.skipAfter →
      (run c s ((ts ++ [t]).map Event.adTimeupdate)).skipButtonActive = s.skipButtonActive ∧
      (run c s ((ts ++ [t]).map Event.adTimeupdate)).skipCountdownHidden = s.skipCountdownHidden ∧
      (run c s ((ts ++ [t]).map Event.adTimeupdate)).skipTimerVal = c.skipAfter - (⌊t⌋ : ℚ)) := by
  induction ts with
  | nil =>
    intro s t hl hp hchain hdur
    have hle : s.adTime ≤ t := (List.chain_singleton.mp hchain)
    have hcf : canFire s (Event.adTimeupdate t) = true :=
      adTimeupdate_canFire s t hl hp hle (hdur t (by simp))
    have hrun : run c s ([t].map Event.adTimeupdate) =
        adTimeupdateHandler c { s with adTime := t } := by
      simp [run, step, hcf, applyEvent]
    rw [List.nil_append, hrun]
    obtain ⟨f1, _, _, _, f5, f6⟩ := adTimeupdateHandler_facts c s t
    exact ⟨f1, f5, f6⟩
  | cons x ts ih =>
    intro s t hl hp hchain hdur
    have hle : s.adTime ≤ x := (List.chain_cons.mp (by simpa using hchain)).1
    have hchain2 : List.Chain (· ≤ ·) x (ts ++ [t]) :=
      (List.chain_cons.mp (by simpa using hchain)).2
    have hcf : canFire s (Event.adTimeupdate x) = true :=
      adTimeupdate_canFire s x hl hp hle (hdur x (by simp))
    obtain ⟨f1, f2, f3, f4, f5, f6⟩ := adTimeupdateHandler_facts c s x
    have hstep : step c s (Event.adTimeupdate x) =
        adTimeupdateHandler c { s with adTime := x } := by
      simp [step, hcf, applyEvent]
    have hxt : x ≤ t := by
      have hpw := (List.chain_iff_pairwise.mp hchain2)
      exact List.rel_of_pairwise_cons hpw (by simp)
    have hrun : run c s (((x :: ts) ++ [t]).map Event.adTimeupdate) =
        run c (adTimeupdateHandler c { s with adTime := x })
          ((ts ++ [t]).map Event.adTimeupdate) := by
      simp [run, hstep]
    rw [hrun]
    have ihr := ih (adTimeupdateHandler c { s with adTime := x }) t
      (by rw [f3]; exact hl) (by rw [f2]; exact hp)
      (by rw [f1]; exact hchain2)
      (by intro y hy dd hdd; rw [f4] at hdd; exact hdur y (by simp [hy]) dd hdd)
    refine ⟨ihr.1, ihr.2.1, ?_⟩
    intro hlt
    have hxlt : (⌊x⌋ : ℚ) < c.skipAfter := by
      have : (⌊x⌋ : ℚ) ≤ (⌊t⌋ : ℚ) := by
        exact_mod_cast Int.floor_le_floor hxt
      linarith
    obtain ⟨g1, g2, g3⟩ := ihr.2.2 hlt
    obtain ⟨e1, e2, _⟩ := f6 hxlt
    exact ⟨by rw [g1, e1], by rw [g2, e2], g3⟩

/-- C5: starting from the ad-start state (skip inert, countdown shown,
ad playing) and applying any nondecreasing sequence of ad position
updates: after an update with elapsed whole seconds below the threshold
the skip action is still inert with the countdown showing
`threshold − elapsed`; after an update with elapsed at or above the
threshold the skip action is visible and interactive, whatever the ad
duration. -/
theorem c5_skip_threshold (c : Config) (s : State) (ts : List ℚ) (t : ℚ)
    (hl : s.listenersAttached = true) (hp : s.adPaused = false)
    (hsb : s.skipButtonActive = false) (hsc : s.skipCountdownHidden = false)
    (hchain : List.Chain (· ≤ ·) s.adTime (ts ++ [t]))
    (hdur : ∀ x ∈ ts ++ [t], ∀ dd, s.adDur = some dd → x ≤ dd) :
    (c.skipAfter ≤ (⌊t⌋ : ℚ) →
      (run c s ((ts ++ [t]).map Event.adTimeupdate)).skipButtonActive = true ∧
      (run c s ((ts ++ [t]).map Event.adTimeupdate)).skipCountdownHidden = true) ∧
    ((⌊t⌋ : ℚ) < c.skipAfter →
      (run c s ((ts ++ [t]).map Event.adTimeupdate)).skipButtonActive = false ∧
      (run c s ((ts ++ [t]).map Event.adTimeupdate)).skipCountdownHidden = false ∧
      (run c s ((ts ++ [t]).map Event.adTimeupdate)).skipTimerVal =
        c.skipAfter - (⌊t⌋ : ℚ)) := by
  obtain ⟨_, h2, h3⟩ := adTimeupdates_run c ts s t hl hp hchain hdur
  refine ⟨h2, ?_⟩
  intro hlt
  obtain ⟨g1, g2, g3⟩ := h3 hlt
  exact ⟨by rw [g1, hsb], by rw [g2, hsc], g3⟩

/-- The state right after the user activates the initial play
affordance: the ad is playing, the skip button inert, the countdown
shown. -/
def adStartState : State :=
  run cfg0 (initState cfg0) [Event.clickPlayButton]

/-- C5 (witness): scenario A with `skipAfter` 5 — position updates at
0, 1, 2, 3, 4 leave the skip action inert with the countdown at
`5 − 4`; the update at 5 makes it visible and interactive. -/
theorem c5_skip_threshold_witness :
    (run cfg0 adStartState (([0, 1, 2, 3] ++ [4]).map Event.adTimeupdate)).skipButtonActive = false ∧
    (run cfg0 adStartState (([0, 1, 2, 3] ++ [4]).map Event.adTimeupdate)).skipTimerVal =
      cfg0.skipAfter - (⌊(4 : ℚ)⌋ : ℚ) ∧
    (run cfg0 adStartState (([0, 1, 2, 3, 4] ++ [5]).map Event.adTimeupdate)).skipButtonActive = true ∧
    (run cfg0 adStartState (([0, 1, 2, 3, 4] ++ [5]).map Event.adTimeupdate)).skipCountdownHidden = true := by
  have hdur4 : ∀ x ∈ ([0, 1, 2, 3] ++ [(4 : ℚ)]), ∀ dd,
      adStartState.adDur = some dd → x ≤ dd := by
    intro x hx dd hdd
    rw [show adStartState.adDur = none from by decide] at hdd
    exact Option.noConfusion hdd
  have hdur5 : ∀ x ∈ ([0, 1, 2, 3, 4] ++ [(5 : ℚ)]), ∀ dd,
      adStartState.adDur = some dd → x ≤ dd := by
    intro x hx dd hdd
    rw [show adStartState.adDur = none from by decide] at hdd
    exact Option.noConfusion hdd
  have hT : adStartState.adTime = 0 := by decide
  have h4 := c5_skip_threshold cfg0 adStartState [0, 1, 2, 3] 4
    (by decide) (by decide) (by decide) (by decide)
    (by rw [hT]; norm_num [List.chain_cons]) hdur4
  have h5 := c5_skip_threshold cfg0 adStartState [0, 1, 2, 3, 4] 5
    (by decide) (by decide) (by decide) (by decide)
    (by rw [hT]; norm_num [List.chain_cons]) hdur5
  have hlt : (⌊(4 : ℚ)⌋ : ℚ) < cfg0.skipAfter := by norm_num [cfg0]
  have hge : cfg0.skipAfter ≤ (⌊(5 : ℚ)⌋ : ℚ) := by norm_num [cfg0]
  exact ⟨(h4.2 hlt).1, (h4.2 hlt).2.2, (h5.1 hge).1, (h5.1 hge).2⟩

/-! ## C3: the sequencer invariant

`seqFields` collects the stage-relevant flags; most handlers never touch
them, which the frame lemmas below record.  `Rseq` is the reachability
invariant of the transition system: the ad can only be playing (and the
skip button only active) after the play overlay and thumbnail are gone,
and once main content is revealed the whole ad stage is hidden and the
ad paused. -/

def seqFields (s : State) :
    Bool × Bool × Bool × Bool × Bool × Bool × Bool :=
  (s.adPaused, s.playOverlayHidden, s.thumbnailHidden, s.skipButtonActive,
   s.mainHidden, s.adHidden, s.adOverlayHidden)

def Rseq (s : State) : Prop :=
  (s.adPaused = false → s.playOverlayHidden = true ∧ s.thumbnailHidden = true) ∧
  (s.skipButtonActive = true → s.playOverlayHidden = true ∧ s.thumbnailHidden = true) ∧
  (s.mainHidden = false →
    s.playOverlayHidden = true ∧ s.thumbnailHidden = true ∧ s.adPaused = true ∧
    s.adHidden = true ∧ s.adOverlayHidden = true)

theorem Rseq_congr {s t : State} (h : seqFields s = seqFields t) :
    Rseq s ↔ Rseq t := by
  simp only [seqFields, Prod.mk.injEq] at h
  obtain ⟨h1, h2, h3, h4, h5, h6, h7⟩ := h
  unfold Rseq
  rw [h1, h2, h3, h4, h5, h6, h7]

theorem seqFields_clearHideTimeout (s : State) :
    seqFields (clearHideTimeout s) = seqFields s := by
  unfold clearHideTimeout; split <;> rfl

theorem seqFields_showControls (s : State) :
    seqFields (showControls s) = seqFields s := by
  dsimp only [showControls, showAllControls, clearHideTimeout, armHideTimeout]
  split <;> split <;> rfl

theorem seqFields_updatePlayPauseIcons (b : Bool) (s : State) :
    seqFields (updatePlayPauseIcons b s) = seqFields s := by
  unfold updatePlayPauseIcons; split <;> rfl

theorem seqFields_mainPlayHandler (s : State) :
    seqFields (mainPlayHandler s) = seqFields s := by
  unfold mainPlayHandler
  rw [seqFields_showControls, seqFields_updatePlayPauseIcons]

theorem seqFields_showAllControls (s : State) :
    seqFields (showAllControls s) = seqFields s := rfl

theorem seqFields_hideAllControls (s : State) :
    seqFields (hideAllControls s) = seqFields s := rfl

theorem seqFields_armHideTimeout (s : State) :
    seqFields (armHideTimeout s) = seqFields s := rfl

theorem seqFields_mainPauseHandler (s : State) :
    seqFields (mainPauseHandler s) = seqFields s := by
  unfold mainPauseHandler
  rw [seqFields_showAllControls, seqFields_clearHideTimeout,
    seqFields_updatePlayPauseIcons]

theorem seqFields_mainPlayCmd (s : State) :
    seqFields (mainPlayCmd s) = seqFields s := by
  unfold mainPlayCmd
  split
  · rw [seqFields_mainPlayHandler]; rfl
  · rfl

theorem seqFields_mainPauseCmd (s : State) :
    seqFields (mainPauseCmd s) = seqFields s := by
  unfold mainPauseCmd
  split
  · rfl
  · rw [seqFields_mainPauseHandler]; rfl

theorem seqFields_togglePlayPause (s : State) :
    seqFields (togglePlayPause s) = seqFields s := by
  unfold togglePlayPause
  split
  · rw [seqFields_mainPlayCmd]
  · rw [seqFields_mainPauseCmd]

theorem seqFields_setCurrentTimeMain (x : ℚ) (s : State) :
    seqFields (setCurrentTimeMain x s) = seqFields s := by
  unfold setCurrentTimeMain; split <;> rfl

theorem seqFields_mainTimeupdateHandler (s : State) :
    seqFields (mainTimeupdateHandler s) = seqFields s := rfl

theorem seqFields_docClickAway (s : State) :
    seqFields (docClickAway s) = seqFields s := by
  unfold docClickAway; split <;> rfl

theorem seqFields_volumeBtnHandler (s : State) :
    seqFields (volumeBtnHandler s) = seqFields s := by
  unfold volumeBtnHandler; split <;> rfl

theorem seqFields_fullscreenBtnHandler (s : State) :
    seqFields (fullscreenBtnHandler s) = seqFields s := by
  unfold fullscreenBtnHandler; split <;> rfl

theorem seqFields_seekBackwardAction (c : Config) (s : State) :
    seqFields (seekBackwardAction c s) = seqFields s := by
  unfold seekBackwardAction
  rw [seqFields_showControls, seqFields_setCurrentTimeMain]

theorem seqFields_seekForwardAction (c : Config) (s : State) :
    seqFields (seekForwardAction c s) = seqFields s := by
  unfold seekForwardAction
  split
  · rfl
  · rw [seqFields_showControls, seqFields_setCurrentTimeMain]

theorem seqFields_speedOptionHandler (i : ℕ) (s : State) :
    seqFields (speedOptionHandler i s) = seqFields s := by
  unfold speedOptionHandler; split <;> rfl

theorem seqFields_qualityOptionHandler (i : ℕ) (s : State) :
    seqFields (qualityOptionHandler i s) = seqFields s := by
  unfold qualityOptionHandler; split <;> rfl

theorem seqFields_keydownHandler (c : Config) (k : Key) (s : State) :
    seqFields (keydownHandler c k s) = seqFields s := by
  unfold keydownHandler
  split
  · rfl
  · cases k
    case space => rw [seqFields_togglePlayPause]
    case kKey => rw [seqFields_togglePlayPause]
    case left => rw [seqFields_seekBackwardAction]
    case right => rw [seqFields_seekForwardAction]
    case up => rfl
    case down => rfl
    case fKey => rw [seqFields_docClickAway, seqFields_fullscreenBtnHandler]
    case mKey => rw [seqFields_docClickAway, seqFields_volumeBtnHandler]

theorem seqFields_pmBottomLeave (r old : Region) (s : State) :
    seqFields (pmBottomLeave r old s) = seqFields s := by
  unfold pmBottomLeave
  split
  · rw [seqFields_showControls]; rfl
  · rfl

theorem seqFields_pmSettingsLeave (r old : Region) (s : State) :
    seqFields (pmSettingsLeave r old s) = seqFields s := by
  unfold pmSettingsLeave
  split
  · split
    · rw [seqFields_showControls]; rfl
    · rfl
  · rfl

theorem seqFields_pmContainerLeave (r old : Region) (s : State) :
    seqFields (pmContainerLeave r old s) = seqFields s := by
  unfold pmContainerLeave
  split
  · split
    · rw [seqFields_hideAllControls]
    · rfl
  · rfl

theorem seqFields_pmContainerEnter (r old : Region) (s : State) :
    seqFields (pmContainerEnter r old s) = seqFields s := by
  unfold pmContainerEnter
  split
  · split
    · rw [seqFields_showControls]
    · rfl
  · rfl

theorem seqFields_pmBottomEnter (r old : Region) (s : State) :
    seqFields (pmBottomEnter r old s) = seqFields s := by
  unfold pmBottomEnter
  split
  · rw [seqFields_clearHideTimeout]; rfl
  · rfl

theorem seqFields_pmSettingsEnter (r old : Region) (s : State) :
    seqFields (pmSettingsEnter r old s) = seqFields s := by
  unfold pmSettingsEnter
  split
  · rw [seqFields_clearHideTimeout]; rfl
  · rfl

theorem seqFields_pmMousemove (r : Region) (s : State) :
    seqFields (pmMousemove r s) = seqFields s := by
  unfold pmMousemove
  split
  · split
    · rw [seqFields_showControls]
    · rfl
  · rfl

theorem seqFields_pointerMoveEffect (r : Region) (s : State) :
    seqFields (pointerMoveEffect r s) = seqFields s := by
  unfold pointerMoveEffect
  rw [seqFields_pmMousemove, seqFields_pmSettingsEnter, seqFields_pmBottomEnter,
    seqFields_pmContainerEnter, seqFields_pmContainerLeave,
    seqFields_pmSettingsLeave, seqFields_pmBottomLeave]
  rfl

/-- The four events whose listeners can modify the stage-relevant
flags. -/
def seqTouching : Event → Bool
  | .clickPlayButton => true
  | .clickSkipButton => true
  | .adEnded => true
  | .adTimeupdate _ => true
  | _ => false

theorem seqFields_applyEvent (c : Config) (s : State) (e : Event)
    (he : seqTouching e = false) :
    seqFields (applyEvent c s e) = seqFields s := by
  cases e <;> simp [seqTouching] at he
  case adLoadedMetadata d => rfl
  case adWaiting => rfl
  case adCanPlay => rfl
  case adPlaying => rfl
  case adSeeking => rfl
  case adSeeked => rfl
  case mainLoadedMetadata d => rfl
  case mainTimeupdate t =>
    dsimp only [applyEvent]
    rw [seqFields_mainTimeupdateHandler]
    rfl
  case mainWaiting => rfl
  case mainCanPlay => rfl
  case mainPlaying => rfl
  case mainSeeking => rfl
  case mainSeeked => rfl
  case mainEnded =>
    dsimp only [applyEvent]
    rw [seqFields_mainPauseHandler]
    rfl
  case clickMainVideo =>
    dsimp only [applyEvent]
    rw [seqFields_docClickAway, seqFields_togglePlayPause]
  case clickCenterPlay =>
    dsimp only [applyEvent]
    rw [seqFields_togglePlayPause]
  case clickSkipBackward =>
    dsimp only [applyEvent]
    rw [seqFields_seekBackwardAction]
  case clickSkipForward =>
    dsimp only [applyEvent]
    rw [seqFields_seekForwardAction]
  case clickProgressBar frac =>
    dsimp only [applyEvent]
    rw [seqFields_docClickAway]
    split
    · rfl
    · rw [seqFields_setCurrentTimeMain]
  case clickVolumeBtn =>
    dsimp only [applyEvent]
    rw [seqFields_docClickAway, seqFields_volumeBtnHandler]
  case volumeSliderInput v =>
    dsimp only [applyEvent]
    split <;> rfl
  case clickFullscreenBtn =>
    dsimp only [applyEvent]
    rw [seqFields_docClickAway, seqFields_fullscreenBtnHandler]
  case clickSettingsBtn =>
    dsimp only [applyEvent]
    split <;> rfl
  case clickSpeedMenuBtn => rfl
  case clickQualityMenuBtn => rfl
  case clickSpeedOption i =>
    dsimp only [applyEvent]
    rw [seqFields_speedOptionHandler]
  case clickQualityOption i =>
    dsimp only [applyEvent]
    rw [seqFields_qualityOptionHandler]
  case docClickOutside =>
    dsimp only [applyEvent]
    rw [seqFields_docClickAway]
  case keydown k =>
    dsimp only [applyEvent]
    rw [seqFields_keydownHandler]
  case pointerMove r =>
    dsimp only [applyEvent]
    rw [seqFields_pointerMoveEffect]
  case hideTimerFire id =>
    dsimp only [applyEvent]
    rw [seqFields_hideAllControls]
    rfl
  case apiPlay =>
    dsimp only [applyEvent]
    rw [seqFields_mainPlayCmd]
  case apiPause =>
    dsimp only [applyEvent]
    rw [seqFields_mainPauseCmd]
  case apiSetVolume v => rfl
  case apiSeekTo x =>
    dsimp only [applyEvent]
    rw [seqFields_setCurrentTimeMain]
  case destroyCall =>
    dsimp only [applyEvent]
    rw [seqFields_clearHideTimeout]

theorem updatePlayPauseIcons_proj (b : Bool) (s : State) :
    (updatePlayPauseIcons b s).thumbnailHidden = s.thumbnailHidden ∧
    (updatePlayPauseIcons b s).playOverlayHidden = s.playOverlayHidden ∧
    (updatePlayPauseIcons b s).skipButtonActive = s.skipButtonActive := by
  unfold updatePlayPauseIcons; split <;> exact ⟨rfl, rfl, rfl⟩

theorem skipToMainVideo_proj (s : State) :
    (skipToMainVideo s).thumbnailHidden = s.thumbnailHidden ∧
    (skipToMainVideo s).playOverlayHidden = s.playOverlayHidden ∧
    (skipToMainVideo s).skipButtonActive = s.skipButtonActive := by
  dsimp only [skipToMainVideo, adPauseCmd, mainPlayCmd, mainPlayHandler]
  split
  · refine ⟨?_, ?_, ?_⟩
    · rw [showControls_thumbnailHidden, (updatePlayPauseIcons_proj _ _).1] <;> rfl
    · rw [showControls_playOverlayHidden, (updatePlayPauseIcons_proj _ _).2.1] <;> rfl
    · rw [showControls_skipButtonActive, (updatePlayPauseIcons_proj _ _).2.2] <;> rfl
  · exact ⟨rfl, rfl, rfl⟩

theorem adTimeupdateHandler_seqProj (c : Config) (u : State) :
    (adTimeupdateHandler c u).adPaused = u.adPaused ∧
    (adTimeupdateHandler c u).playOverlayHidden = u.playOverlayHidden ∧
    (adTimeupdateHandler c u).thumbnailHidden = u.thumbnailHidden ∧
    (adTimeupdateHandler c u).mainHidden = u.mainHidden ∧
    (adTimeupdateHandler c u).adHidden = u.adHidden ∧
    (adTimeupdateHandler c u).adOverlayHidden = u.adOverlayHidden := by
  dsimp only [adTimeupdateHandler]
  split <;> exact ⟨rfl, rfl, rfl, rfl, rfl, rfl⟩

theorem adTimeupdateHandler_skipCases (c : Config) (u : State) :
    (adTimeupdateHandler c u).skipButtonActive = true ∨
    (adTimeupdateHandler c u).skipButtonActive = u.skipButtonActive := by
  dsimp only [adTimeupdateHandler]
  split
  · exact Or.inl rfl
  · exact Or.inr rfl

theorem Rseq_step (c : Config) (s : State) (e : Event) (h : Rseq s) :
    Rseq (step c s e) := by
  unfold step
  split
  case isFalse => exact h
  case isTrue hfire =>
    cases e
    case clickPlayButton =>
      simp only [canFire, Bool.and_eq_true, Bool.not_eq_true'] at hfire
      obtain ⟨hl, hpo⟩ := hfire
      have hmain : s.mainHidden = true := by
        cases hm : s.mainHidden
        · exact absurd (h.2.2 hm).1 (by simp [hpo])
        · rfl
      have hfields : (playButtonHandler s).thumbnailHidden = true ∧
          (playButtonHandler s).playOverlayHidden = true ∧
          (playButtonHandler s).adPaused = false ∧
          (playButtonHandler s).mainHidden = s.mainHidden := by
        dsimp only [playButtonHandler, adPlayCmd, adPlayHandler]
        split
        · exact ⟨rfl, rfl, rfl, rfl⟩
        next hnp => exact ⟨rfl, rfl, by simpa using hnp, rfl⟩
      dsimp only [applyEvent]
      rw [Rseq_congr (seqFields_docClickAway _)]
      unfold Rseq
      refine ⟨fun _ => ⟨hfields.2.1, hfields.1⟩, fun _ => ⟨hfields.2.1, hfields.1⟩,
        fun hm2 => ?_⟩
      rw [hfields.2.2.2, hmain] at hm2
      exact absurd hm2 (by simp)
    case clickSkipButton =>
      simp only [canFire, Bool.and_eq_true, Bool.not_eq_true'] at hfire
      obtain ⟨⟨hl, hao⟩, hsk⟩ := hfire
      obtain ⟨hpo, hth⟩ := h.2.1 hsk
      obtain ⟨f1, _, f3, f4, _, _, _⟩ := skipToMainVideo_fields s
      obtain ⟨p1, p2, _⟩ := skipToMainVideo_proj s
      dsimp only [applyEvent]
      rw [Rseq_congr (seqFields_docClickAway _)]
      unfold Rseq
      refine ⟨fun hap => absurd (hap ▸ f1) (by simp), fun _ => ?_, fun _ => ?_⟩
      · rw [p1, p2]; exact ⟨hpo, hth⟩
      · rw [p1, p2]; exact ⟨hpo, hth, f1, f3, f4⟩
    case adEnded =>
      simp only [canFire, Bool.and_eq_true, Bool.not_eq_true'] at hfire
      obtain ⟨hl, hap⟩ := hfire
      obtain ⟨hpo, hth⟩ := h.1 hap
      obtain ⟨f1, _, f3, f4, _, _, _⟩ := skipToMainVideo_fields s
      obtain ⟨p1, p2, _⟩ := skipToMainVideo_proj s
      dsimp only [applyEvent]
      unfold Rseq
      refine ⟨fun hap2 => absurd (hap2 ▸ f1) (by simp), fun _ => ?_, fun _ => ?_⟩
      · rw [p1, p2]; exact ⟨hpo, hth⟩
      · rw [p1, p2]; exact ⟨hpo, hth, f1, f3, f4⟩
    case adTimeupdate t =>
      simp only [canFire, Bool.and_eq_true, Bool.not_eq_true'] at hfire
      obtain ⟨⟨⟨hl, hap⟩, _⟩, _⟩ := hfire
      obtain ⟨hpo, hth⟩ := h.1 hap
      have hmain : s.mainHidden = true := by
        cases hm : s.mainHidden
        · exact absurd ((h.2.2 hm).2.2.1.symm.trans hap) (by simp)
        · rfl
      obtain ⟨q1, q2, q3, q4, _, _⟩ :=
        adTimeupdateHandler_seqProj c { s with adTime := t }
      dsimp only [applyEvent]
      unfold Rseq
      refine ⟨fun _ => ?_, fun _ => ?_, fun hm2 => ?_⟩
      · rw [q2, q3]; exact ⟨hpo, hth⟩
      · rw [q2, q3]; exact ⟨hpo, hth⟩
      · rw [q4] at hm2
        exact absurd (hm2.symm.trans hmain) (by simp)
    all_goals
      exact (Rseq_congr (seqFields_applyEvent c s _ (by simp [seqTouching]))).mpr h

theorem Rseq_init (c : Config) : Rseq (initState c) := by
  simp [Rseq, initState]

theorem Rseq_run (c : Config) (evs : List Event) :
    ∀ s : State, Rseq s → Rseq (run c s evs) := by
  induction evs with
  | nil => exact fun s h => h
  | cons e es ih => exact fun s h => ih _ (Rseq_step c s e h)

theorem mainHidden_of_seqFields {a b : State} (h : seqFields a = seqFields b) :
    a.mainHidden = b.mainHidden := by
  simp only [seqFields, Prod.mk.injEq] at h
  exact h.2.2.2.2.1

theorem main_disables_ad_events (c : Config) (s : State) (h : Rseq s)
    (hm : s.mainHidden = false) :
    canFire s Event.clickPlayButton = false ∧
    canFire s Event.clickSkipButton = false ∧
    canFire s Event.adEnded = false := by
  obtain ⟨hpo, hth, hap, hah, hao⟩ := h.2.2 hm
  refine ⟨?_, ?_, ?_⟩ <;> simp [canFire, hpo, hao, hap]

theorem mainHidden_step (c : Config) (s : State) (e : Event) (h : Rseq s)
    (hm : s.mainHidden = false) : (step c s e).mainHidden = false := by
  unfold step
  split
  case isFalse => exact hm
  case isTrue hfire =>
    cases e
    case clickPlayButton =>
      rw [(main_disables_ad_events c s h hm).1] at hfire
      exact absurd hfire (by simp)
    case clickSkipButton =>
      rw [(main_disables_ad_events c s h hm).2.1] at hfire
      exact absurd hfire (by simp)
    case adEnded =>
      rw [(main_disables_ad_events c s h hm).2.2] at hfire
      exact absurd hfire (by simp)
    case adTimeupdate t =>
      dsimp only [applyEvent]
      rw [(adTimeupdateHandler_seqProj c _).2.2.2.1]
      exact hm
    all_goals
      rw [mainHidden_of_seqFields
        (seqFields_applyEvent c s _ (by simp [seqTouching]))]
      exact hm

theorem mainStage_run (c : Config) (evs : List Event) :
    ∀ s : State, Rseq s → s.mainHidden = false →
    (run c s evs).mainHidden = false ∧ adCmdTrace c s evs = 0 := by
  induction evs with
  | nil => exact fun s _ hm => ⟨hm, rfl⟩
  | cons e es ih =>
    intro s hR hm
    have h1 := mainHidden_step c s e hR hm
    have hR2 := Rseq_step c s e hR
    have ihr := ih (step c s e) hR2 h1
    refine ⟨ihr.1, ?_⟩
    have hcmd : (if canFire s e then adCmdCount e else 0) = 0 := by
      split
      case isTrue hfire =>
        cases e
        case clickPlayButton =>
          rw [(main_disables_ad_events c s hR hm).1] at hfire
          exact absurd hfire (by simp)
        case clickSkipButton =>
          rw [(main_disables_ad_events c s hR hm).2.1] at hfire
          exact absurd hfire (by simp)
        case adEnded =>
          rw [(main_disables_ad_events c s hR hm).2.2] at hfire
          exact absurd hfire (by simp)
        all_goals rfl
      case isFalse => rfl
    show (if canFire s e then adCmdCount e else 0) + adCmdTrace c (step c s e) es = 0
    rw [hcmd, ihr.2]

/-- C3: stage transitions are one-way.  However the main stage was
reached (any event history `evs1` from construction), every further
event sequence `evs2` — clicks, key presses, media notifications, timer
expiries, pointer moves, API calls — leaves main content revealed, the
thumbnail and the ad stage hidden, the ad paused, and issues not a
single further playback command to the ad element. -/
theorem c3_main_stage_is_terminal (c : Config) (evs1 evs2 : List Event)
    (h : (run c (initState c) evs1).mainHidden = false) :
    (run c (run c (initState c) evs1) evs2).mainHidden = false ∧
    (run c (run c (initState c) evs1) evs2).adHidden = true ∧
    (run c (run c (initState c) evs1) evs2).thumbnailHidden = true ∧
    (run c (run c (initState c) evs1) evs2).adPaused = true ∧
    (run c (run c (initState c) evs1) evs2).adOverlayHidden = true ∧
    (run c (run c (initState c) evs1) evs2).playOverlayHidden = true ∧
    adCmdTrace c (run c (initState c) evs1) evs2 = 0 := by
  have hR1 : Rseq (run c (initState c) evs1) := Rseq_run c evs1 _ (Rseq_init c)
  have hR2 : Rseq (run c (run c (initState c) evs1) evs2) :=
    Rseq_run c evs2 _ hR1
  obtain ⟨hmain, hcmd⟩ := mainStage_run c evs2 _ hR1 h
  obtain ⟨hpo, hth, hap, hah, hao⟩ := hR2.2.2 hmain
  exact ⟨hmain, hah, hth, hap, hao, hpo, hcmd⟩

/-- C3 (witness): after play-button activation and the ad ending
naturally, the main stage is active; a further burst of events — a
(blocked) play-button click, a stale ad update, keyboard pause/play,
pointer movement and the auto-hide timer — keeps the stage at Main,
everything ad-related hidden, and issues no ad playback command. -/
theorem c3_main_stage_is_terminal_witness :
    (run cfg0 (initState cfg0) [Event.clickPlayButton, Event.adEnded]).mainHidden = false ∧
    (run cfg0 (run cfg0 (initState cfg0) [Event.clickPlayButton, Event.adEnded])
      [Event.clickPlayButton, Event.keydown Key.space, Event.keydown Key.kKey,
       Event.pointerMove Region.container, Event.hideTimerFire 0,
       Event.docClickOutside]).adHidden = true ∧
    adCmdTrace cfg0 (run cfg0 (initState cfg0) [Event.clickPlayButton, Event.adEnded])
      [Event.clickPlayButton, Event.keydown Key.space, Event.keydown Key.kKey,
       Event.pointerMove Region.container, Event.hideTimerFire 0,
       Event.docClickOutside] = 0 := by
  have h := c3_main_stage_is_terminal cfg0 [Event.clickPlayButton, Event.adEnded]
    [Event.clickPlayButton, Event.keydown Key.space, Event.keydown Key.kKey,
     Event.pointerMove Region.container, Event.hideTimerFire 0,
     Event.docClickOutside] (by decide)
  exact ⟨by decide, h.2.1, h.2.2.2.2.2.2⟩

/-! ## C4: the auto-hide timer discipline

`TimerOK` says the pending-timeout list is empty or the single timeout
stored in `this.hideControlsTimeout`; `TimerCond` says a pending timeout
implies playing with neither suppressor set; `PtrOK` ties the tracked
pointer position to `isUserInteracting`. -/

def TimerOK (s : State) : Prop :=
  s.timers = [] ∨ ∃ h : ℕ, s.hideControlsTimeout = some h ∧ s.timers = [h]

def TimerCond (s : State) : Prop :=
  s.timers ≠ [] →
    s.mainPaused = false ∧ s.isUserInteracting = false ∧ s.isSettingsOpen = false

def PtrOK (s : State) : Prop :=
  (s.pointer = Region.bottomBar ∨ s.pointer = Region.settingsArea) →
    s.isUserInteracting = true

def Core (s : State) : Prop := TimerOK s ∧ TimerCond s

def Inv4 (s : State) : Prop := Core s ∧ PtrOK s

theorem clearHideTimeout_proj (s : State) :
    (clearHideTimeout s).mainPaused = s.mainPaused ∧
    (clearHideTimeout s).isUserInteracting = s.isUserInteracting ∧
    (clearHideTimeout s).isSettingsOpen = s.isSettingsOpen ∧
    (clearHideTimeout s).pointer = s.pointer ∧
    (clearHideTimeout s).controlsHidden = s.controlsHidden := by
  unfold clearHideTimeout; split <;> exact ⟨rfl, rfl, rfl, rfl, rfl⟩

theorem clearHideTimeout_timers_nil (s : State) (h : TimerOK s) :
    (clearHideTimeout s).timers = [] := by
  rcases h with h | ⟨x, hx, ht⟩
  · unfold clearHideTimeout
    split
    · exact h
    · rw [h]; rfl
  · unfold clearHideTimeout
    rw [hx]
    show s.timers.erase x = []
    rw [ht]
    simp

theorem ptrOK_of_proj {a b : State} (hi : a.isUserInteracting = b.isUserInteracting)
    (hp : a.pointer = b.pointer) (h : PtrOK b) : PtrOK a := by
  intro hr
  rw [hi]
  exact h (by rw [← hp]; exact hr)

theorem core_showControls (s : State) (h : Core s) : Core (showControls s) := by
  obtain ⟨h1, h2⟩ := h
  have hY : (clearHideTimeout (showAllControls s)).timers = [] :=
    clearHideTimeout_timers_nil (showAllControls s) h1
  dsimp only [showControls]
  split
  next hc =>
    simp only [Bool.and_eq_true, Bool.not_eq_true'] at hc
    obtain ⟨⟨hp, hu⟩, hs⟩ := hc
    constructor
    · refine Or.inr ⟨(clearHideTimeout (showAllControls s)).nextTimerId, rfl, ?_⟩
      show (clearHideTimeout (showAllControls s)).timers ++ _ = _
      rw [hY]
      rfl
    · intro _
      exact ⟨hp, hu, hs⟩
  next =>
    exact ⟨Or.inl hY, fun hne => absurd hY hne⟩

theorem ptr_showControls (s : State) (h : PtrOK s) : PtrOK (showControls s) :=
  ptrOK_of_proj (showControls_isUserInteracting s) (showControls_pointer s) h

theorem inv4_showControls (s : State) (h : Inv4 s) : Inv4 (showControls s) :=
  ⟨core_showControls s h.1, ptr_showControls s h.2⟩

theorem inv4_clearHideTimeout (s : State) (h : Inv4 s) :
    Inv4 (clearHideTimeout s) := by
  have hnil := clearHideTimeout_timers_nil s h.1.1
  exact ⟨⟨Or.inl hnil, fun hne => absurd hnil hne⟩,
    ptrOK_of_proj (clearHideTimeout_proj s).2.1 (clearHideTimeout_proj s).2.2.2.1 h.2⟩

theorem mainPauseHandler_timers_nil (u : State) (h1 : TimerOK u) :
    (mainPauseHandler u).timers = [] := by
  dsimp only [mainPauseHandler]
  show (clearHideTimeout (updatePlayPauseIcons false u)).timers = []
  exact clearHideTimeout_timers_nil _ h1

theorem updatePlayPauseIcons_vis (b : Bool) (u : State) :
    (updatePlayPauseIcons b u).isUserInteracting = u.isUserInteracting ∧
    (updatePlayPauseIcons b u).pointer = u.pointer := by
  unfold updatePlayPauseIcons; split <;> exact ⟨rfl, rfl⟩

theorem mainPauseHandler_vis (u : State) :
    (mainPauseHandler u).isUserInteracting = u.isUserInteracting ∧
    (mainPauseHandler u).pointer = u.pointer := by
  dsimp only [mainPauseHandler]
  constructor
  · show (clearHideTimeout (updatePlayPauseIcons false u)).isUserInteracting = _
    rw [(clearHideTimeout_proj _).2.1, (updatePlayPauseIcons_vis _ _).1]
  · show (clearHideTimeout (updatePlayPauseIcons false u)).pointer = _
    rw [(clearHideTimeout_proj _).2.2.2.1, (updatePlayPauseIcons_vis _ _).2]

theorem inv4_mainPauseHandlerAt (s : State) (h : Inv4 s) :
    Inv4 (mainPauseHandler { s with mainPaused := true }) := by
  have hnil : (mainPauseHandler { s with mainPaused := true }).timers = [] :=
    mainPauseHandler_timers_nil _ h.1.1
  refine ⟨⟨Or.inl hnil, fun hne => absurd hnil hne⟩, ?_⟩
  exact ptrOK_of_proj (mainPauseHandler_vis _).1 (mainPauseHandler_vis _).2 h.2

theorem inv4_mainPauseCmd (s : State) (h : Inv4 s) : Inv4 (mainPauseCmd s) := by
  unfold mainPauseCmd
  split
  · exact h
  · exact inv4_mainPauseHandlerAt s h

theorem inv4_mainPlayCmd (s : State) (h : Inv4 s) : Inv4 (mainPlayCmd s) := by
  unfold mainPlayCmd
  split
  next hp =>
    have hnil : s.timers = [] := by
      by_cases hne : s.timers = []
      · exact hne
      · exact absurd (h.1.2 hne).1 (by simp [hp])
    dsimp only [mainPlayHandler]
    apply inv4_showControls
    exact ⟨⟨Or.inl hnil, fun hne => absurd hnil hne⟩, h.2⟩
  next => exact h

theorem inv4_togglePlayPause (s : State) (h : Inv4 s) :
    Inv4 (togglePlayPause s) := by
  unfold togglePlayPause
  split
  · exact inv4_mainPlayCmd s h
  · exact inv4_mainPauseCmd s h

theorem inv4_skipToMainVideo (s : State) (h : Inv4 s) :
    Inv4 (skipToMainVideo s) := by
  dsimp only [skipToMainVideo, adPauseCmd]
  exact inv4_mainPlayCmd _ h

theorem inv4_docClickAway (s : State) (h : Inv4 s) : Inv4 (docClickAway s) := by
  unfold docClickAway
  split
  next hso =>
    have hnil : s.timers = [] := by
      by_cases hne : s.timers = []
      · exact hne
      · exact absurd (h.1.2 hne).2.2 (by simp [hso])
    exact ⟨⟨Or.inl hnil, fun hne => absurd hnil hne⟩, h.2⟩
  next => exact h

theorem inv4_setCurrentTimeMain (x : ℚ) (s : State) (h : Inv4 s) :
    Inv4 (setCurrentTimeMain x s) := by
  unfold setCurrentTimeMain; split <;> exact h

theorem inv4_seekBackwardAction (c : Config) (s : State) (h : Inv4 s) :
    Inv4 (seekBackwardAction c s) := by
  unfold seekBackwardAction
  exact inv4_showControls _ (inv4_setCurrentTimeMain _ _ h)

theorem inv4_seekForwardAction (c : Config) (s : State) (h : Inv4 s) :
    Inv4 (seekForwardAction c s) := by
  unfold seekForwardAction
  split
  · exact h
  · exact inv4_showControls _ (inv4_setCurrentTimeMain _ _ h)

theorem inv4_volumeBtnHandler (s : State) (h : Inv4 s) :
    Inv4 (volumeBtnHandler s) := by
  unfold volumeBtnHandler; split <;> exact h

theorem inv4_fullscreenBtnHandler (s : State) (h : Inv4 s) :
    Inv4 (fullscreenBtnHandler s) := by
  unfold fullscreenBtnHandler; split <;> exact h

theorem inv4_speedOptionHandler (i : ℕ) (s : State) (h : Inv4 s) :
    Inv4 (speedOptionHandler i s) := by
  unfold speedOptionHandler
  split
  · exact h
  · refine ⟨⟨h.1.1, fun hne => ?_⟩, h.2⟩
    obtain ⟨a, b, _⟩ := h.1.2 hne
    exact ⟨a, b, rfl⟩

theorem inv4_qualityOptionHandler (i : ℕ) (s : State) (h : Inv4 s) :
    Inv4 (qualityOptionHandler i s) := by
  unfold qualityOptionHandler
  split
  · exact h
  · refine ⟨⟨h.1.1, fun hne => ?_⟩, h.2⟩
    obtain ⟨a, b, _⟩ := h.1.2 hne
    exact ⟨a, b, rfl⟩

theorem inv4_keydownHandler (c : Config) (k : Key) (s : State) (h : Inv4 s) :
    Inv4 (keydownHandler c k s) := by
  unfold keydownHandler
  split
  · exact h
  · cases k
    case space => exact inv4_togglePlayPause s h
    case kKey => exact inv4_togglePlayPause s h
    case left => exact inv4_seekBackwardAction c s h
    case right => exact inv4_seekForwardAction c s h
    case up => exact h
    case down => exact h
    case fKey => exact inv4_docClickAway _ (inv4_fullscreenBtnHandler s h)
    case mKey => exact inv4_docClickAway _ (inv4_volumeBtnHandler s h)

theorem inv4_adTimeupdateHandler (c : Config) (u : State) (h : Inv4 u) :
    Inv4 (adTimeupdateHandler c u) := by
  dsimp only [adTimeupdateHandler]
  split <;> exact h

theorem core_at_interacting_false (s : State) (h : Core s) :
    Core { s with isUserInteracting := false } := by
  refine ⟨h.1, fun hne => ?_⟩
  obtain ⟨a, _, b⟩ := h.2 hne
  exact ⟨a, rfl, b⟩

theorem core_pmBottomLeave (r o : Region) (s : State) (h : Core s) :
    Core (pmBottomLeave r o s) := by
  unfold pmBottomLeave
  split
  · exact core_showControls _ (core_at_interacting_false s h)
  · exact h

theorem core_pmSettingsLeave (r o : Region) (s : State) (h : Core s) :
    Core (pmSettingsLeave r o s) := by
  unfold pmSettingsLeave
  split
  · split
    · exact core_showControls _ (core_at_interacting_false s h)
    · exact h
  · exact h

theorem core_pmContainerLeave (r o : Region) (s : State) (h : Core s) :
    Core (pmContainerLeave r o s) := by
  unfold pmContainerLeave
  split
  · split
    · exact h
    · exact h
  · exact h

theorem core_pmContainerEnter (r o : Region) (s : State) (h : Core s) :
    Core (pmContainerEnter r o s) := by
  unfold pmContainerEnter
  split
  · split
    · exact core_showControls _ h
    · exact h
  · exact h

theorem core_clearTrue (s : State) (h : Core s) :
    Core (clearHideTimeout { s with isUserInteracting := true }) := by
  have hnil : (clearHideTimeout { s with isUserInteracting := true }).timers = [] :=
    clearHideTimeout_timers_nil _ h.1
  exact ⟨Or.inl hnil, fun hne => absurd hnil hne⟩

theorem core_pmBottomEnter (r o : Region) (s : State) (h : Core s) :
    Core (pmBottomEnter r o s) := by
  unfold pmBottomEnter
  split
  · exact core_clearTrue s h
  · exact h

theorem core_pmSettingsEnter (r o : Region) (s : State) (h : Core s) :
    Core (pmSettingsEnter r o s) := by
  unfold pmSettingsEnter
  split
  · exact core_clearTrue s h
  · exact h

theorem core_pmMousemove (r : Region) (s : State) (h : Core s) :
    Core (pmMousemove r s) := by
  unfold pmMousemove
  split
  · split
    · exact core_showControls _ h
    · exact h
  · exact h

theorem core_pointerMoveEffect (r : Region) (s : State) (h : Core s) :
    Core (pointerMoveEffect r s) := by
  unfold pointerMoveEffect
  exact core_pmMousemove _ _ (core_pmSettingsEnter _ _ _ (core_pmBottomEnter _ _ _
    (core_pmContainerEnter _ _ _ (core_pmContainerLeave _ _ _
      (core_pmSettingsLeave _ _ _ (core_pmBottomLeave _ _ _ h))))))

theorem clearHideTimeout_isUserInteracting (s : State) :
    (clearHideTimeout s).isUserInteracting = s.isUserInteracting :=
  (clearHideTimeout_proj s).2.1

theorem clearHideTimeout_pointer (s : State) :
    (clearHideTimeout s).pointer = s.pointer :=
  (clearHideTimeout_proj s).2.2.2.1

theorem pmBottomLeave_pointer (r o : Region) (s : State) :
    (pmBottomLeave r o s).pointer = s.pointer := by
  unfold pmBottomLeave
  split
  · rw [showControls_pointer]
  · rfl

theorem pmSettingsLeave_pointer (r o : Region) (s : State) :
    (pmSettingsLeave r o s).pointer = s.pointer := by
  unfold pmSettingsLeave
  split
  · split
    · rw [showControls_pointer]
    · rfl
  · rfl

theorem pmContainerLeave_pointer (r o : Region) (s : State) :
    (pmContainerLeave r o s).pointer = s.pointer := by
  unfold pmContainerLeave
  split
  · split <;> rfl
  · rfl

theorem pmContainerEnter_pointer (r o : Region) (s : State) :
    (pmContainerEnter r o s).pointer = s.pointer := by
  unfold pmContainerEnter
  split
  · split
    · rw [showControls_pointer]
    · rfl
  · rfl

theorem pmBottomEnter_pointer (r o : Region) (s : State) :
    (pmBottomEnter r o s).pointer = s.pointer := by
  unfold pmBottomEnter
  split
  · rw [clearHideTimeout_pointer]
  · rfl

theorem pmSettingsEnter_pointer (r o : Region) (s : State) :
    (pmSettingsEnter r o s).pointer = s.pointer := by
  unfold pmSettingsEnter
  split
  · rw [clearHideTimeout_pointer]
  · rfl

theorem pmMousemove_pointer (r : Region) (s : State) :
    (pmMousemove r s).pointer = s.pointer := by
  unfold pmMousemove
  split
  · split
    · rw [showControls_pointer]
    · rfl
  · rfl

theorem pointerMoveEffect_pointer (r : Region) (s : State) :
    (pointerMoveEffect r s).pointer = r := by
  unfold pointerMoveEffect
  rw [pmMousemove_pointer, pmSettingsEnter_pointer, pmBottomEnter_pointer,
    pmContainerEnter_pointer, pmContainerLeave_pointer, pmSettingsLeave_pointer,
    pmBottomLeave_pointer]

theorem pmMousemove_isUserInteracting (r : Region) (s : State) :
    (pmMousemove r s).isUserInteracting = s.isUserInteracting := by
  unfold pmMousemove
  split
  · split
    · rw [showControls_isUserInteracting]
    · rfl
  · rfl

theorem pmContainerEnter_isUserInteracting (r o : Region) (s : State) :
    (pmContainerEnter r o s).isUserInteracting = s.isUserInteracting := by
  unfold pmContainerEnter
  split
  · split
    · rw [showControls_isUserInteracting]
    · rfl
  · rfl

theorem pmContainerLeave_isUserInteracting (r o : Region) (s : State) :
    (pmContainerLeave r o s).isUserInteracting = s.isUserInteracting := by
  unfold pmContainerLeave
  split
  · split <;> rfl
  · rfl

theorem pmBottomLeave_eq_self (r o : Region) (s : State)
    (h : (o == Region.bottomBar && r != Region.bottomBar) = false) :
    pmBottomLeave r o s = s := by
  unfold pmBottomLeave
  rw [h]
  rfl

theorem pmSettingsLeave_eq_self (r o : Region) (s : State)
    (h : (o == Region.settingsArea && r != Region.settingsArea) = false) :
    pmSettingsLeave r o s = s := by
  unfold pmSettingsLeave
  rw [h]
  rfl

theorem pmBottomEnter_eq_self (r o : Region) (s : State)
    (h : (r == Region.bottomBar && o != Region.bottomBar) = false) :
    pmBottomEnter r o s = s := by
  unfold pmBottomEnter
  rw [h]
  rfl

theorem pmSettingsEnter_eq_self (r o : Region) (s : State)
    (h : (r == Region.settingsArea && o != Region.settingsArea) = false) :
    pmSettingsEnter r o s = s := by
  unfold pmSettingsEnter
  rw [h]
  rfl

theorem pmBottomEnter_fires (r o : Region) (s : State)
    (h : (r == Region.bottomBar && o != Region.bottomBar) = true) :
    pmBottomEnter r o s = clearHideTimeout { s with isUserInteracting := true } := by
  unfold pmBottomEnter
  rw [h]
  rfl

theorem pmSettingsEnter_fires (r o : Region) (s : State)
    (h : (r == Region.settingsArea && o != Region.settingsArea) = true) :
    pmSettingsEnter r o s = clearHideTimeout { s with isUserInteracting := true } := by
  unfold pmSettingsEnter
  rw [h]
  rfl

theorem ptr_pointerMoveEffect (r : Region) (s : State) (h : PtrOK s) :
    PtrOK (pointerMoveEffect r s) := by
  intro hr
  rw [pointerMoveEffect_pointer] at hr
  unfold pointerMoveEffect
  rcases hr with hr | hr
  · subst hr
    rw [pmMousemove_isUserInteracting]
    cases ho : s.pointer
    case bottomBar =>
      rw [pmSettingsEnter_eq_self _ _ _ (by decide),
        pmBottomEnter_eq_self _ _ _ (by decide),
        pmContainerEnter_isUserInteracting, pmContainerLeave_isUserInteracting,
        pmSettingsLeave_eq_self _ _ _ (by decide),
        pmBottomLeave_eq_self _ _ _ (by decide)]
      exact h (Or.inl ho)
    all_goals
      rw [pmSettingsEnter_eq_self _ _ _ (by decide),
        pmBottomEnter_fires _ _ _ (by decide), clearHideTimeout_isUserInteracting]
  · subst hr
    rw [pmMousemove_isUserInteracting]
    cases ho : s.pointer
    case settingsArea =>
      rw [pmSettingsEnter_eq_self _ _ _ (by decide),
        pmBottomEnter_eq_self _ _ _ (by decide),
        pmContainerEnter_isUserInteracting, pmContainerLeave_isUserInteracting,
        pmSettingsLeave_eq_self _ _ _ (by decide),
        pmBottomLeave_eq_self _ _ _ (by decide)]
      exact h (Or.inr ho)
    all_goals
      rw [pmSettingsEnter_fires _ _ _ (by decide),
        clearHideTimeout_isUserInteracting]

theorem inv4_pointerMoveEffect (r : Region) (s : State) (h : Inv4 s) :
    Inv4 (pointerMoveEffect r s) := by
  refine ⟨?_, ptr_pointerMoveEffect r s h.2⟩
  unfold pointerMoveEffect
  exact core_pmMousemove _ _ (core_pmSettingsEnter _ _ _ (core_pmBottomEnter _ _ _
    (core_pmContainerEnter _ _ _ (core_pmContainerLeave _ _ _
      (core_pmSettingsLeave _ _ _ (core_pmBottomLeave _ _ _ h.1))))))

theorem inv4_step (c : Config) (s : State) (e : Event) (h : Inv4 s) :
    Inv4 (step c s e) := by
  unfold step
  split
  case isFalse => exact h
  case isTrue hfire =>
    cases e
    case clickPlayButton =>
      dsimp only [applyEvent]
      apply inv4_docClickAway
      dsimp only [playButtonHandler, adPlayCmd, adPlayHandler]
      split <;> exact h
    case clickSkipButton =>
      dsimp only [applyEvent]
      exact inv4_docClickAway _ (inv4_skipToMainVideo s h)
    case adEnded =>
      dsimp only [applyEvent]
      exact inv4_skipToMainVideo s h
    case adTimeupdate t =>
      dsimp only [applyEvent]
      exact inv4_adTimeupdateHandler c _ h
    case adLoadedMetadata d => exact h
    case adWaiting => exact h
    case adCanPlay => exact h
    case adPlaying => exact h
    case adSeeking => exact h
    case adSeeked => exact h
    case mainLoadedMetadata d => exact h
    case mainTimeupdate t =>
      dsimp only [applyEvent, mainTimeupdateHandler]
      exact h
    case mainWaiting => exact h
    case mainCanPlay => exact h
    case mainPlaying => exact h
    case mainSeeking => exact h
    case mainSeeked => exact h
    case mainEnded =>
      dsimp only [applyEvent]
      exact inv4_mainPauseHandlerAt s h
    case clickMainVideo =>
      dsimp only [applyEvent]
      exact inv4_docClickAway _ (inv4_togglePlayPause s h)
    case clickCenterPlay =>
      dsimp only [applyEvent]
      exact inv4_togglePlayPause s h
    case clickSkipBackward =>
      dsimp only [applyEvent]
      exact inv4_seekBackwardAction c s h
    case clickSkipForward =>
      dsimp only [applyEvent]
      exact inv4_seekForwardAction c s h
    case clickProgressBar frac =>
      dsimp only [applyEvent]
      apply inv4_docClickAway
      split
      · exact h
      · exact inv4_setCurrentTimeMain _ _ h
    case clickVolumeBtn =>
      dsimp only [applyEvent]
      exact inv4_docClickAway _ (inv4_volumeBtnHandler s h)
    case volumeSliderInput v =>
      dsimp only [applyEvent]
      split <;> exact h
    case clickFullscreenBtn =>
      dsimp only [applyEvent]
      exact inv4_docClickAway _ (inv4_fullscreenBtnHandler s h)
    case clickSettingsBtn =>
      simp only [canFire, Bool.and_eq_true, Bool.not_eq_true', beq_iff_eq] at hfire
      obtain ⟨⟨hl, hch⟩, hptr⟩ := hfire
      have hint : s.isUserInteracting = true := h.2 (Or.inr hptr)
      have hnil : s.timers = [] := by
        by_cases hne : s.timers = []
        · exact hne
        · exact absurd (h.1.2 hne).2.1 (by simp [hint])
      dsimp only [applyEvent]
      split <;> exact ⟨⟨h.1.1, fun hne => absurd hnil hne⟩, h.2⟩
    case clickSpeedMenuBtn => exact h
    case clickQualityMenuBtn => exact h
    case clickSpeedOption i =>
      dsimp only [applyEvent]
      exact inv4_speedOptionHandler i s h
    case clickQualityOption i =>
      dsimp only [applyEvent]
      exact inv4_qualityOptionHandler i s h
    case docClickOutside =>
      dsimp only [applyEvent]
      exact inv4_docClickAway s h
    case keydown k =>
      dsimp only [applyEvent]
      exact inv4_keydownHandler c k s h
    case pointerMove r =>
      dsimp only [applyEvent]
      exact inv4_pointerMoveEffect r s h
    case hideTimerFire id =>
      dsimp only [applyEvent]
      refine ⟨⟨?_, ?_⟩, h.2⟩
      · rcases h.1.1 with hnl | ⟨x, hx, ht⟩
        · left
          show s.timers.erase id = []
          rw [hnl]
          rfl
        · by_cases hid : id = x
          · left
            show s.timers.erase id = []
            rw [ht, hid]
            simp
          · right
            refine ⟨x, hx, ?_⟩
            show s.timers.erase id = [x]
            rw [ht]
            simp [List.erase_cons, Ne.symm hid]
      · intro hne
        have hne0 : s.timers ≠ [] := by
          intro hh
          apply hne
          show s.timers.erase id = []
          rw [hh]
          rfl
        exact h.1.2 hne0
    case apiPlay =>
      dsimp only [applyEvent]
      exact inv4_mainPlayCmd s h
    case apiPause =>
      dsimp only [applyEvent]
      exact inv4_mainPauseCmd s h
    case apiSetVolume v => exact h
    case apiSeekTo x =>
      dsimp only [applyEvent]
      exact inv4_setCurrentTimeMain x s h
    case destroyCall =>
      dsimp only [applyEvent]
      exact inv4_clearHideTimeout s h

theorem inv4_init (c : Config) : Inv4 (initState c) := by
  refine ⟨⟨Or.inl rfl, fun hne => absurd rfl hne⟩, fun hp => ?_⟩
  rcases hp with hp | hp <;> simp [initState] at hp

theorem inv4_run (c : Config) (evs : List Event) :
    ∀ s : State, Inv4 s → Inv4 (run c s evs) := by
  induction evs with
  | nil => exact fun s h => h
  | cons e es ih => exact fun s h => ih _ (inv4_step c s e h)

/-- C4: in every reachable state, at most one auto-hide timeout is
pending (every re-arm in `showControls` first runs `clearTimeout`), and
whenever the hide timeout is able to fire the main video is playing,
the settings menu is closed, `isUserInteracting` is unset, and the
pointer is over neither the bottom control bar nor the settings
container — so the timer never hides the controls while paused, while
the settings menu is open, or while the pointer is over the control
surface. -/
theorem c4_autohide_timer_discipline (c : Config) (evs : List Event) :
    (run c (initState c) evs).timers.length ≤ 1 ∧
    (∀ id : ℕ,
      canFire (run c (initState c) evs) (Event.hideTimerFire id) = true →
      (run c (initState c) evs).mainPaused = false ∧
      (run c (initState c) evs).isSettingsOpen = false ∧
      (run c (initState c) evs).isUserInteracting = false ∧
      (run c (initState c) evs).pointer ≠ Region.bottomBar ∧
      (run c (initState c) evs).pointer ≠ Region.settingsArea) := by
  have hI : Inv4 (run c (initState c) evs) :=
    inv4_run c evs _ (inv4_init c)
  constructor
  · rcases hI.1.1 with hnl | ⟨x, _, hx⟩
    · rw [hnl]; simp
    · rw [hx]; simp
  · intro id hfire
    have hmem : id ∈ (run c (initState c) evs).timers := by
      simpa [canFire] using hfire
    have hne : (run c (initState c) evs).timers ≠ [] := by
      intro hh
      rw [hh] at hmem
      exact absurd hmem (by simp)
    obtain ⟨hp, hu, hs⟩ := hI.1.2 hne
    refine ⟨hp, hs, hu, ?_, ?_⟩
    · intro hb
      rw [hI.2 (Or.inl hb)] at hu
      exact absurd hu (by simp)
    · intro hb
      rw [hI.2 (Or.inr hb)] at hu
      exact absurd hu (by simp)

/-- C4 (witness): after entering the main stage the hide timeout `0` is
pending and able to fire, and the theorem's guarantees hold at that
state. -/
theorem c4_autohide_timer_discipline_witness :
    (run cfg0 (initState cfg0) [Event.clickPlayButton, Event.adEnded]).timers.length ≤ 1 ∧
    canFire (run cfg0 (initState cfg0) [Event.clickPlayButton, Event.adEnded])
      (Event.hideTimerFire 0) = true ∧
    (run cfg0 (initState cfg0) [Event.clickPlayButton, Event.adEnded]).mainPaused = false ∧
    (run cfg0 (initState cfg0) [Event.clickPlayButton, Event.adEnded]).isSettingsOpen = false ∧
    (run cfg0 (initState cfg0) [Event.clickPlayButton, Event.adEnded]).isUserInteracting = false := by
  have h := c4_autohide_timer_discipline cfg0 [Event.clickPlayButton, Event.adEnded]
  have hf : canFire (run cfg0 (initState cfg0) [Event.clickPlayButton, Event.adEnded])
      (Event.hideTimerFire 0) = true := by decide
  exact ⟨h.1, hf, (h.2 0 hf).1, (h.2 0 hf).2.1, (h.2 0 hf).2.2.1⟩
